import Mathlib

/-!
# ClawGuard core — shallow embedding and verification

This file embeds the core of the ClawGuard activity monitor in Lean 4:

* the rule-based risk classifier (`src/lib/risk-analyzer.js`: `categorize`,
  `analyzeRisk` and its pattern tables),
* the suspicious-sequence detector (the `/sequences` route and its helper
  predicates, `src/routes/activity.js` / `src/server.js` lines 516-940),
* the incremental log tailer (`processNewLogEntries`, `src/server.js`
  lines 111-187),
* the delivery buffer (`flushStreamBuffer`, `src/server.js` lines 64-108).

JavaScript regular-expression literals are embedded as terms of a small
regular-expression language `Rgx` with a derivative-based matcher; each
JS regex from the source is transcribed as a closed `Rgx` term including
its word-boundary and anchor context (`RegExp.test` performs an
unanchored search, so unanchored patterns are padded with `anyStar`).
JS strings are Lean `String`s; JS numbers used as timestamps are `Int`
milliseconds; absent (`undefined`) values are `Option`.
-/

/-- Regular expressions over characters, with character-class atoms.
`chr p` matches a single character satisfying `p`. -/
inductive Rgx where
  | eps : Rgx
  | nul : Rgx
  | chr : (Char → Bool) → Rgx
  | seqr : Rgx → Rgx → Rgx
  | alt : Rgx → Rgx → Rgx
  | star : Rgx → Rgx

/-- Does the regex accept the empty string? -/
def Rgx.nullable : Rgx → Bool
  | .eps => true
  | .nul => false
  | .chr _ => false
  | .seqr a b => a.nullable && b.nullable
  | .alt a b => a.nullable || b.nullable
  | .star _ => true

/-- Smart sequencing constructor (prunes `nul`, collapses `eps`). -/
def Rgx.mkSeq : Rgx → Rgx → Rgx
  | .nul, _ => .nul
  | _, .nul => .nul
  | .eps, b => b
  | a, .eps => a
  | a, b => .seqr a b

/-- Smart alternation constructor (prunes `nul`). -/
def Rgx.mkAlt : Rgx → Rgx → Rgx
  | .nul, b => b
  | a, .nul => a
  | a, b => .alt a b

/-- Brzozowski derivative with respect to one character. -/
def Rgx.deriv : Rgx → Char → Rgx
  | .eps, _ => .nul
  | .nul, _ => .nul
  | .chr p, c => if p c then .eps else .nul
  | .seqr a b, c =>
      if a.nullable then .mkAlt (.mkSeq (a.deriv c) b) (b.deriv c)
      else .mkSeq (a.deriv c) b
  | .alt a b, c => .mkAlt (a.deriv c) (b.deriv c)
  | .star a, c => .mkSeq (a.deriv c) (.star a)

/-- Whole-string matching by iterated derivatives. -/
def Rgx.matches (r : Rgx) (s : List Char) : Bool :=
  (s.foldl Rgx.deriv r).nullable

/-- `RegExp.prototype.test` on a Lean string: the embedded `Rgx` terms
already contain their search context, so this is whole-string matching. -/
def testR (r : Rgx) (s : String) : Bool :=
  r.matches s.data

/-! ### Character classes and combinators used by the transcriptions -/

/-- JS `\w`: `[A-Za-z0-9_]`. -/
def wordChar (c : Char) : Bool := c.isAlpha || c.isDigit || c == '_'

/-- JS `\s` (whitespace). -/
def wsChar (c : Char) : Bool :=
  c == ' ' || c == '\t' || c == '\n' || c == '\r' || c == '\x0b' || c == '\x0c'

/-- Any character (the implicit search padding; not JS `.`). -/
def anyc : Rgx := .chr fun _ => true

def anyStar : Rgx := .star anyc

/-- JS `.`: any character except line terminators. -/
def dotc : Rgx := .chr fun c => !(c == '\n' || c == '\r' || c == (Char.ofNat 0x2028) || c == (Char.ofNat 0x2029))

def dotStar : Rgx := .star dotc

/-- A non-word character. -/
def nw : Rgx := .chr fun c => !wordChar c

/-- A non-word character that is also not a line terminator (a `.`-consumable
word-boundary witness). -/
def nwd : Rgx := .chr fun c => !wordChar c && !(c == '\n' || c == '\r' || c == (Char.ofNat 0x2028) || c == (Char.ofNat 0x2029))

/-- A word character. -/
def wdc : Rgx := .chr wordChar

def ws1 : Rgx := .seqr (.chr wsChar) (.star (.chr wsChar))

def wsStar : Rgx := .star (.chr wsChar)

/-- `\w+`. -/
def wd1 : Rgx := .seqr wdc (.star wdc)

def wdStar : Rgx := .star wdc

/-- `\S` (non-whitespace). -/
def nws : Rgx := .chr fun c => !wsChar c

def nws1 : Rgx := .seqr nws (.star nws)

/-- Search prefix for a pattern starting with `\b` followed by a word
character: either the match starts at the beginning of the string, or the
preceding character is a non-word character. -/
def lead : Rgx := .alt .eps (.seqr anyStar nw)

/-- Search suffix for a pattern ending with a word character followed by
`\b`: either the match ends the string, or the next character is non-word. -/
def eow : Rgx := .alt .eps (.seqr nw anyStar)

/-- Search prefix for a plain (unanchored, no `\b`) pattern. -/
def pad : Rgx := anyStar

/-- Exact character. -/
def chE (c : Char) : Rgx := .chr fun x => x == c

/-- Case-insensitive character (`c` given in lowercase). -/
def chI (c : Char) : Rgx := .chr fun x => x.toLower == c

/-- Exact string literal. -/
def strE (s : String) : Rgx := go s.data where
  go : List Char → Rgx
    | [] => .eps
    | c :: cs => .seqr (chE c) (go cs)

/-- Case-insensitive string literal (`s` given in lowercase, as under a
JS `/i` flag). -/
def strI (s : String) : Rgx := go s.data where
  go : List Char → Rgx
    | [] => .eps
    | c :: cs => .seqr (chI c) (go cs)

/-- Right-nested sequencing of a list of regexes. -/
def cat : List Rgx → Rgx
  | [] => .eps
  | [r] => r
  | r :: rs => .seqr r (cat rs)

/-- `r?`. -/
def opt (r : Rgx) : Rgx := .alt .eps r

/-- n-fold repetition of `r`. -/
def rep : Nat → Rgx → Rgx
  | 0, _ => .eps
  | n + 1, r => .seqr r (rep n r)

/-- Alternation of a list (`nul` if empty). -/
def altL : List Rgx → Rgx
  | [] => .nul
  | [r] => r
  | r :: rs => .alt r (altL rs)

example : testR (cat [lead, strI "sudo", ws1, anyStar]) "sudo rm -rf /" = true := by decide
example : testR (cat [lead, strI "sudo", ws1, anyStar]) "visudo x" = false := by decide
example : testR (cat [lead, strI "mkfs", eow]) "x mkfsy" = false := by decide
example : testR (cat [lead, strI "mkfs", eow]) "x mkfs -t" = true := by decide

/-! ## Risk classifier (`src/lib/risk-analyzer.js`) -/

/-- Risk levels (`RiskLevel` in the source). -/
inductive RiskLevel where
  | low | medium | high | critical
deriving DecidableEq, Repr

/-- Tool categories (`ToolCategory` in the source). -/
inductive ToolCategory where
  | shell | file | network | message | system | memory | browser | other
deriving DecidableEq, Repr

/-- `categorize(toolName)`: exact-match lookup table from tool name to
category; unmapped names fall to `other`. -/
def categorize (toolName : String) : ToolCategory :=
  match toolName with
  | "exec" => .shell
  | "process" => .shell
  | "read" => .file
  | "write" => .file
  | "edit" => .file
  | "Read" => .file
  | "Write" => .file
  | "Edit" => .file
  | "web_fetch" => .network
  | "web_search" => .network
  | "browser" => .browser
  | "message" => .message
  | "tts" => .message
  | "cron" => .system
  | "gateway" => .system
  | "sessions_spawn" => .system
  | "sessions_send" => .system
  | "sessions_list" => .system
  | "sessions_history" => .system
  | "session_status" => .system
  | "agents_list" => .system
  | "nodes" => .system
  | "canvas" => .system
  | "memory_search" => .memory
  | "memory_get" => .memory
  | _ => .other

/-- One entry of a pattern table: a transcribed regex and its description. -/
structure Pat where
  re : Rgx
  desc : String

/-- `CRITICAL_SHELL_PATTERNS`. Each entry transcribes the JS regex literal
of the same position in the source table (all carry the `/i` flag). -/
def CRITICAL_SHELL_PATTERNS : List Pat := [
  -- /\bsudo\s+/i
  ⟨cat [lead, strI "sudo", ws1, anyStar], "Privileged command execution"⟩,
  -- /\brm\s+(-rf?|--recursive)\s+[\/~]/i
  ⟨cat [lead, strI "rm", ws1,
        .alt (cat [chE '-', chI 'r', opt (chI 'f')]) (strI "--recursive"),
        ws1, .chr (fun c => c == '/' || c == '~'), anyStar],
   "Recursive deletion of system/home paths"⟩,
  -- /\bcurl\s+.*\|\s*(ba)?sh/i
  ⟨cat [lead, strI "curl", ws1, dotStar, chE '|', wsStar, opt (strI "ba"), strI "sh", anyStar],
   "Remote code execution via pipe to shell"⟩,
  -- /\bwget\s+.*\|\s*(ba)?sh/i
  ⟨cat [lead, strI "wget", ws1, dotStar, chE '|', wsStar, opt (strI "ba"), strI "sh", anyStar],
   "Remote code execution via pipe to shell"⟩,
  -- /\bsecurity\s+find-(generic|internet)-password/i
  ⟨cat [lead, strI "security", ws1, strI "find-", .alt (strI "generic") (strI "internet"),
        strI "-password", anyStar],
   "Keychain password extraction"⟩,
  -- /\bsecurity\s+dump-keychain/i
  ⟨cat [lead, strI "security", ws1, strI "dump-keychain", anyStar], "Full keychain dump"⟩,
  -- /\bop\s+(read|get|item)/i
  ⟨cat [lead, strI "op", ws1, altL [strI "read", strI "get", strI "item"], anyStar],
   "1Password credential access"⟩,
  -- /\bbw\s+(get|list)\s+(password|item)/i
  ⟨cat [lead, strI "bw", ws1, .alt (strI "get") (strI "list"), ws1,
        .alt (strI "password") (strI "item"), anyStar],
   "Bitwarden credential access"⟩,
  -- /\bdd\s+if=.*of=\/dev\//i
  ⟨cat [lead, strI "dd", ws1, strI "if=", dotStar, strI "of=/dev/", anyStar],
   "Direct disk write (potential disk wipe)"⟩,
  -- /\bmkfs\b/i
  ⟨cat [lead, strI "mkfs", eow], "Filesystem creation (destructive)"⟩,
  -- />\s*\/dev\/sd[a-z]/i
  ⟨cat [pad, chE '>', wsStar, strI "/dev/sd", .chr (fun c => 'a' ≤ c.toLower && c.toLower ≤ 'z'), anyStar],
   "Direct write to disk device"⟩]

/-- `HIGH_RISK_SHELL_PATTERNS` (all `/i`). -/
def HIGH_RISK_SHELL_PATTERNS : List Pat := [
  -- /\brm\s+-rf?\b/i
  ⟨cat [lead, strI "rm", ws1, chE '-', chI 'r', opt (chI 'f'), eow], "Recursive file deletion"⟩,
  -- /\bchmod\s+777\b/i
  ⟨cat [lead, strI "chmod", ws1, strI "777", eow], "World-writable permissions"⟩,
  -- /\beval\b/i
  ⟨cat [lead, strI "eval", eow], "Dynamic code evaluation"⟩,
  -- /\bkillall\b/i
  ⟨cat [lead, strI "killall", eow], "Mass process termination"⟩,
  -- /\bgog\s+gmail\s+send\b/i
  ⟨cat [lead, strI "gog", ws1, strI "gmail", ws1, strI "send", eow], "Sending email via Gmail"⟩,
  -- /\bhimalaya\s+(send|write|reply|forward)\b/i
  ⟨cat [lead, strI "himalaya", ws1,
        altL [strI "send", strI "write", strI "reply", strI "forward"], eow],
   "Sending email via Himalaya"⟩,
  -- /\bwacli\s+send\b/i
  ⟨cat [lead, strI "wacli", ws1, strI "send", eow], "Sending WhatsApp message"⟩,
  -- /\bimsg\s+send\b/i
  ⟨cat [lead, strI "imsg", ws1, strI "send", eow], "Sending iMessage/SMS"⟩,
  -- /\bbird\s+(post|tweet|reply)\b/i
  ⟨cat [lead, strI "bird", ws1, altL [strI "post", strI "tweet", strI "reply"], eow],
   "Posting to Twitter/X"⟩,
  -- /\baws\s+(s3|ec2|iam|lambda|rds)\b/i
  ⟨cat [lead, strI "aws", ws1, altL [strI "s3", strI "ec2", strI "iam", strI "lambda", strI "rds"], eow],
   "AWS cloud operations"⟩,
  -- /\bgcloud\s+/i
  ⟨cat [lead, strI "gcloud", ws1, anyStar], "Google Cloud operations"⟩,
  -- /\baz\s+(vm|storage|keyvault|ad)\b/i
  ⟨cat [lead, strI "az", ws1, altL [strI "vm", strI "storage", strI "keyvault", strI "ad"], eow],
   "Azure cloud operations"⟩,
  -- /\bterraform\s+(apply|destroy)\b/i
  ⟨cat [lead, strI "terraform", ws1, .alt (strI "apply") (strI "destroy"), eow],
   "Infrastructure modification"⟩,
  -- /\bkubectl\s+(delete|apply|exec)\b/i
  ⟨cat [lead, strI "kubectl", ws1, altL [strI "delete", strI "apply", strI "exec"], eow],
   "Kubernetes cluster operations"⟩,
  -- /\bgit\s+push\s+.*--force\b/i
  ⟨cat [lead, strI "git", ws1, strI "push", ws1, dotStar, strI "--force", eow],
   "Force push (can overwrite history)"⟩,
  -- /\bgit\s+push\s+origin\s+(main|master)\b/i
  ⟨cat [lead, strI "git", ws1, strI "push", ws1, strI "origin", ws1,
        .alt (strI "main") (strI "master"), eow],
   "Pushing to main branch"⟩,
  -- /\bimagesnap\b/i
  ⟨cat [lead, strI "imagesnap", eow], "Camera capture"⟩,
  -- /\bffmpeg\s+.*-f\s+avfoundation/i
  ⟨cat [lead, strI "ffmpeg", ws1, dotStar, strI "-f", ws1, strI "avfoundation", anyStar],
   "Audio/video recording"⟩,
  -- /\bscreencapture\b/i
  ⟨cat [lead, strI "screencapture", eow], "Screen capture"⟩,
  -- /\bafrecord\b/i
  ⟨cat [lead, strI "afrecord", eow], "Audio recording"⟩,
  -- /\breboot\b/i
  ⟨cat [lead, strI "reboot", eow], "System reboot"⟩,
  -- /\bshutdown\b/i
  ⟨cat [lead, strI "shutdown", eow], "System shutdown"⟩,
  -- /\bsystemctl\s+(stop|disable|mask)\b/i
  ⟨cat [lead, strI "systemctl", ws1, altL [strI "stop", strI "disable", strI "mask"], eow],
   "Disabling system services"⟩,
  -- /\blaunchctl\s+(unload|remove)\b/i
  ⟨cat [lead, strI "launchctl", ws1, .alt (strI "unload") (strI "remove"), eow],
   "Removing launch agents"⟩,
  -- /\blaunchctl\s+load\b/i
  ⟨cat [lead, strI "launchctl", ws1, strI "load", eow], "Loading launch agent (persistence)"⟩,
  -- /\bcrontab\s+-e?\b/i  (trailing \b after "-e", or after "-" which then
  -- needs a following word character)
  ⟨cat [lead, strI "crontab", ws1, chE '-',
        .alt (.seqr (chI 'e') eow) (.seqr wdc anyStar)],
   "Modifying cron jobs (persistence)"⟩,
  -- />\s*~\/Library\/LaunchAgents\//i
  ⟨cat [pad, chE '>', wsStar, strI "~/library/launchagents/", anyStar],
   "Creating launch agent (persistence)"⟩,
  -- /\bexport\s+\w*(_API_KEY|_SECRET|_TOKEN|_PASSWORD)=/i
  ⟨cat [lead, strI "export", ws1, wdStar,
        altL [strI "_api_key", strI "_secret", strI "_token", strI "_password"], chE '=', anyStar],
   "Exporting credentials to environment"⟩,
  -- /\becho\s+.*\b(password|secret|token|api.?key)\b.*>/i
  ⟨cat [lead, strI "echo", ws1, .alt .eps (.seqr dotStar nwd),
        altL [strI "password", strI "secret", strI "token", cat [strI "api", opt dotc, strI "key"]],
        .alt (chE '>') (cat [nwd, dotStar, chE '>']), anyStar],
   "Writing credentials to file"⟩,
  -- /\bnc\s+-l/i
  ⟨cat [lead, strI "nc", ws1, strI "-l", anyStar], "Opening network listener"⟩,
  -- /\bnetcat\s+-l/i
  ⟨cat [lead, strI "netcat", ws1, strI "-l", anyStar], "Opening network listener"⟩,
  -- /\bsocat\b.*LISTEN/i
  ⟨cat [lead, strI "socat", nwd, dotStar, strI "listen", anyStar], "Opening network listener"⟩,
  -- /\bdocker\s+run\s+.*--privileged/i
  ⟨cat [lead, strI "docker", ws1, strI "run", ws1, dotStar, strI "--privileged", anyStar],
   "Privileged Docker container"⟩,
  -- /\bdocker\s+run\s+.*-v\s+\/:/i
  ⟨cat [lead, strI "docker", ws1, strI "run", ws1, dotStar, strI "-v", ws1, strI "/:", anyStar],
   "Docker mounting host root"⟩,
  -- /\bdocker\s+exec\s+.*\/bin\/(ba)?sh/i
  ⟨cat [lead, strI "docker", ws1, strI "exec", ws1, dotStar, strI "/bin/", opt (strI "ba"), strI "sh", anyStar],
   "Docker container shell access"⟩]

/-- `MEDIUM_RISK_SHELL_PATTERNS` (all `/i`). -/
def MEDIUM_RISK_SHELL_PATTERNS : List Pat := [
  -- /\bcurl\s+(-O|--output)\b/i
  ⟨cat [lead, strI "curl", ws1, .alt (strI "-o") (strI "--output"), eow], "Downloading file"⟩,
  -- /\bwget\b/i
  ⟨cat [lead, strI "wget", eow], "Downloading file"⟩,
  -- /\bssh\s+\w+@/i
  ⟨cat [lead, strI "ssh", ws1, wd1, chE '@', anyStar], "SSH connection"⟩,
  -- /\bscp\b/i
  ⟨cat [lead, strI "scp", eow], "Secure copy"⟩,
  -- /\brsync\b/i
  ⟨cat [lead, strI "rsync", eow], "Remote sync"⟩,
  -- /\bchmod\b/i
  ⟨cat [lead, strI "chmod", eow], "Changing file permissions"⟩,
  -- /\bchown\b/i
  ⟨cat [lead, strI "chown", eow], "Changing file ownership"⟩,
  -- /\bpip\s+install\b/i
  ⟨cat [lead, strI "pip", ws1, strI "install", eow], "Python package installation"⟩,
  -- /\bnpm\s+install\s+-g\b/i
  ⟨cat [lead, strI "npm", ws1, strI "install", ws1, strI "-g", eow],
   "Global npm package installation"⟩,
  -- /\bbrew\s+install\b/i
  ⟨cat [lead, strI "brew", ws1, strI "install", eow], "Homebrew package installation"⟩,
  -- /\bgit\s+push\b/i
  ⟨cat [lead, strI "git", ws1, strI "push", eow], "Git push"⟩,
  -- /\bgit\s+clone\b/i
  ⟨cat [lead, strI "git", ws1, strI "clone", eow], "Git clone"⟩,
  -- /\bpbpaste\b/i
  ⟨cat [lead, strI "pbpaste", eow], "Reading clipboard"⟩,
  -- /\bpbcopy\b/i
  ⟨cat [lead, strI "pbcopy", eow], "Writing to clipboard"⟩,
  -- /\bkill\s+-9\b/i
  ⟨cat [lead, strI "kill", ws1, strI "-9", eow], "Force killing process"⟩,
  -- /\bpkill\b/i
  ⟨cat [lead, strI "pkill", eow], "Pattern-based process kill"⟩,
  -- /\bdocker\s+(run|build|pull)\b/i
  ⟨cat [lead, strI "docker", ws1, altL [strI "run", strI "build", strI "pull"], eow],
   "Docker operations"⟩,
  -- /\bsqlite3\b/i
  ⟨cat [lead, strI "sqlite3", eow], "SQLite database access"⟩,
  -- /\bpsql\b/i
  ⟨cat [lead, strI "psql", eow], "PostgreSQL access"⟩,
  -- /\bmysql\b/i
  ⟨cat [lead, strI "mysql", eow], "MySQL access"⟩,
  -- /\bopenssl\b/i
  ⟨cat [lead, strI "openssl", eow], "OpenSSL operations"⟩,
  -- /\bbase64\b/i
  ⟨cat [lead, strI "base64", eow], "Base64 encoding/decoding"⟩,
  -- /\bgpg\b/i
  ⟨cat [lead, strI "gpg", eow], "GPG operations"⟩]

/-- `SENSITIVE_PATHS` (all `/i`; `$`-anchored entries end without padding). -/
def SENSITIVE_PATHS : List Pat := [
  ⟨cat [pad, strI ".ssh/", anyStar], "SSH keys/config"⟩,                                -- /\.ssh\//i
  ⟨cat [pad, strI ".gnupg/", anyStar], "GPG keys"⟩,                                     -- /\.gnupg\//i
  ⟨cat [pad, strI "id_rsa", anyStar], "RSA private key"⟩,                               -- /id_rsa/i
  ⟨cat [pad, strI "id_ed25519", anyStar], "ED25519 private key"⟩,                       -- /id_ed25519/i
  ⟨cat [pad, strI ".pem"], "PEM certificate/key"⟩,                                      -- /\.pem$/i
  ⟨cat [pad, strI ".key"], "Private key file"⟩,                                         -- /\.key$/i
  ⟨cat [pad, strI ".p12"], "PKCS12 keystore"⟩,                                          -- /\.p12$/i
  ⟨cat [pad, strI ".pfx"], "PFX certificate"⟩,                                          -- /\.pfx$/i
  ⟨cat [pad, strI ".aws/", anyStar], "AWS credentials"⟩,                                -- /\.aws\//i
  ⟨cat [pad, strI ".azure/", anyStar], "Azure credentials"⟩,                            -- /\.azure\//i
  ⟨cat [pad, strI ".kube/", anyStar], "Kubernetes config"⟩,                             -- /\.kube\//i
  ⟨cat [pad, strI ".docker/config.json", anyStar], "Docker credentials"⟩,               -- /\.docker\/config\.json/i
  ⟨cat [pad, strI "gcloud/credentials", anyStar], "Google Cloud credentials"⟩,          -- /gcloud\/credentials/i
  ⟨cat [pad, strI "1password", anyStar], "1Password data"⟩,                             -- /1password/i
  ⟨cat [pad, strI "lastpass", anyStar], "LastPass data"⟩,                               -- /lastpass/i
  ⟨cat [pad, strI "bitwarden", anyStar], "Bitwarden data"⟩,                             -- /bitwarden/i
  ⟨cat [pad, strI ".password-store/", anyStar], "pass password store"⟩,                 -- /\.password-store\//i
  ⟨cat [pad, strI "keychain", anyStar], "Keychain file"⟩,                               -- /keychain/i
  ⟨cat [pad, strI ".keychain-db", anyStar], "Keychain database"⟩,                       -- /\.keychain-db/i
  ⟨cat [pad, strI ".env"], "Environment file"⟩,                                         -- /\.env$/i
  ⟨cat [pad, strI ".env.", .seqr (.chr fun c => 'a' ≤ c.toLower && c.toLower ≤ 'z')
        (.star (.chr fun c => 'a' ≤ c.toLower && c.toLower ≤ 'z'))], "Environment file"⟩, -- /\.env\.[a-z]+$/i
  ⟨cat [pad, strI ".netrc"], "Netrc credentials"⟩,                                      -- /\.netrc$/i
  ⟨cat [pad, strI ".npmrc"], "NPM config (may contain tokens)"⟩,                        -- /\.npmrc$/i
  ⟨cat [pad, strI ".pypirc"], "PyPI credentials"⟩,                                      -- /\.pypirc$/i
  ⟨cat [pad, strI "password", anyStar], "Password-related file"⟩,                       -- /password/i
  ⟨cat [pad, strI "secret", anyStar], "Secret-related file"⟩,                           -- /secret/i
  ⟨cat [pad, strI "credential", anyStar], "Credential file"⟩,                           -- /credential/i
  ⟨cat [pad, strI "token", anyStar], "Token file"⟩,                                     -- /token/i
  ⟨cat [pad, strI "api", opt (.chr fun c => c == '_' || c == '-'), strI "key", anyStar],
   "API key file"⟩,                                                                     -- /api[_-]?key/i
  ⟨cat [pad, strI "/etc/passwd", anyStar], "System passwd file"⟩,                       -- /\/etc\/passwd/i
  ⟨cat [pad, strI "/etc/shadow", anyStar], "System shadow file"⟩,                       -- /\/etc\/shadow/i
  ⟨cat [pad, strI "/etc/sudoers", anyStar], "Sudoers file"⟩]                            -- /\/etc\/sudoers/i

/-- `SYSTEM_PATHS`: `^`-anchored, case-sensitive (no `/i` flag). -/
def SYSTEM_PATHS : List Pat := [
  ⟨cat [strE "/etc/", anyStar], "System configuration"⟩,
  ⟨cat [strE "/usr/", anyStar], "System binaries"⟩,
  ⟨cat [strE "/bin/", anyStar], "Essential binaries"⟩,
  ⟨cat [strE "/sbin/", anyStar], "System binaries"⟩,
  ⟨cat [strE "/var/", anyStar], "Variable data"⟩,
  ⟨cat [strE "/System/", anyStar], "macOS System"⟩,
  ⟨cat [strE "/Library/", anyStar], "macOS Library"⟩,
  ⟨cat [strE "/Applications/", anyStar], "Applications folder"⟩]

/-- `SENSITIVE_URLS` (all `/i`). -/
def SENSITIVE_URLS : List Pat := [
  ⟨.alt (cat [pad, strI "banking", anyStar]) (cat [pad, strI "bank.", anyStar]),
   "Banking website"⟩,                                                                  -- /banking|bank\./i
  ⟨cat [pad, strI "paypal.com", anyStar], "PayPal"⟩,
  ⟨cat [pad, strI "stripe.com", anyStar], "Stripe"⟩,
  ⟨cat [pad, strI "accounts.google.com", anyStar], "Google Account"⟩,
  ⟨altL [cat [pad, strI "login.", anyStar], cat [pad, strI "signin.", anyStar],
         cat [pad, strI "auth.", anyStar]], "Authentication page"⟩,                     -- /login\.|signin\.|auth\./i
  ⟨cat [pad, strI "oauth", anyStar], "OAuth flow"⟩,
  ⟨cat [pad, strI "portal.azure.com", anyStar], "Azure Portal"⟩,
  ⟨cat [pad, strI "console.aws.amazon.com", anyStar], "AWS Console"⟩,
  ⟨cat [pad, strI "github.com/settings", anyStar], "GitHub Settings"⟩,
  ⟨cat [pad, strI "icloud.com", anyStar], "iCloud"⟩]

/-- `/(_API_KEY|_SECRET|_TOKEN|_PASSWORD)\s*[=:]/i` (credentials written to
file content). -/
def reSecretAssign : Rgx :=
  cat [pad, altL [strI "_api_key", strI "_secret", strI "_token", strI "_password"],
       wsStar, .chr (fun c => c == '=' || c == ':'), anyStar]

/-- `/https?:\/\/\d+\.\d+\.\d+\.\d+/` (case-sensitive, raw IP URL). -/
def reIpUrl : Rgx :=
  cat [pad, strE "http", opt (chE 's'), strE "://",
       .seqr (.chr Char.isDigit) (.star (.chr Char.isDigit)), chE '.',
       .seqr (.chr Char.isDigit) (.star (.chr Char.isDigit)), chE '.',
       .seqr (.chr Char.isDigit) (.star (.chr Char.isDigit)), chE '.',
       .seqr (.chr Char.isDigit) (.star (.chr Char.isDigit)), anyStar]

/-! ### Activity records and JS value helpers -/

/-- The argument fields the core ever reads from a record's `arguments`
bag. Absent keys are `none`. -/
structure Args where
  command : Option String := none
  path : Option String := none
  file_path : Option String := none
  content : Option String := none
  url : Option String := none
  targetUrl : Option String := none
  target : Option String := none
  toRecipient : Option String := none  -- the `to` argument (JS keyword clash)
  action : Option String := none
  message : Option String := none
  channel : Option String := none
deriving DecidableEq, Repr, Inhabited

/-- Is `pre` a prefix of `l`? (executable helper for JS `String.includes`). -/
def listPre : List Char → List Char → Bool
  | [], _ => true
  | _ :: _, [] => false
  | a :: as, b :: bs => a == b && listPre as bs

/-- Is `sub` a contiguous substring of `l`? -/
def listSub (sub : List Char) : List Char → Bool
  | [] => listPre sub []
  | b :: bs => listPre sub (b :: bs) || listSub sub bs

/-- JS `s.includes(sub)`. -/
def strIncludes (s sub : String) : Bool := listSub sub.data s.data

/-- JS `String.prototype.trim()`: strip whitespace from both ends. -/
def jsTrim (s : String) : String :=
  ⟨((s.data.dropWhile wsChar).reverse.dropWhile wsChar).reverse⟩

/-- `split('\n')` on a character list: `[[]]` for the empty input, as in
JS where `''.split('\n')` is `['']`. -/
def splitNl : List Char → List (List Char)
  | [] => [[]]
  | c :: cs =>
    match splitNl cs with
    | [] => [[]]
    | acc :: rest => if c == '\n' then [] :: acc :: rest else (c :: acc) :: rest

/-- JS `content.trim().split('\n')`. -/
def jsSplitLines (content : String) : List String :=
  (splitNl (jsTrim content).data).map fun l => ⟨l⟩

/-- JS `a || b` for an optionally-present string `a` and string default
`b` (the empty string is falsy). -/
def jsOrStr (a : Option String) (b : String) : String :=
  match a with
  | some s => if s = "" then b else s
  | none => b

/-- JS `a || b` when both operands may be `undefined`. -/
def jsOrOpt (a b : Option String) : Option String :=
  match a with
  | some s => if s = "" then b else some s
  | none => b

/-- JS template-literal rendering of a possibly-`undefined` string. -/
def jsShow (a : Option String) : String := a.getD "undefined"

/-- A record as consumed by `analyzeRisk` (`{ tool, arguments }`). -/
structure ActivityRec where
  tool : String
  arguments : Option Args
deriving DecidableEq, Repr

/-- The risk verdict produced by `analyzeRisk`. -/
structure RiskVerdict where
  level : RiskLevel
  category : ToolCategory
  flags : List String
  score : Nat
deriving DecidableEq, Repr

/-- `riskScore(level)`. -/
def riskScore (level : RiskLevel) : Nat :=
  match level with
  | .low => 1
  | .medium => 2
  | .high => 3
  | .critical => 4

/-- One pass over a pattern table, mirroring the source's
`for (const { pattern, desc } of TABLE) if (pattern.test(x)) { riskLevel = LVL; flags.push(tag(desc)); }`
loops. -/
def scanTable (pats : List Pat) (lvl : RiskLevel) (tag : String → String) (x : String)
    (st : RiskLevel × List String) : RiskLevel × List String :=
  pats.foldl (fun st p => if testR p.re x then (lvl, st.2 ++ [tag p.desc]) else st) st

/-- `analyzeRisk(activity)` (`src/lib/risk-analyzer.js` lines 285-476).
`home` is the ambient `process.env.HOME` consulted by the file branch. -/
def analyzeRisk (home : String) (activity : ActivityRec) : RiskVerdict :=
  let tool := activity.tool
  let args := activity.arguments
  let category := categorize tool
  let st : RiskLevel × List String :=
    match category with
    | .shell =>
      let command := jsOrStr (args.bind Args.command) ""
      let st := scanTable CRITICAL_SHELL_PATTERNS .critical (fun d => "CRITICAL: " ++ d) command (.low, [])
      let st := if st.1 ≠ .critical then
          scanTable HIGH_RISK_SHELL_PATTERNS .high (fun d => "HIGH: " ++ d) command st
        else st
      let st := if st.1 = .low then
          scanTable MEDIUM_RISK_SHELL_PATTERNS .medium (fun d => d) command st
        else st
      st
    | .file =>
      let path := jsOrStr (args.bind Args.path) (jsOrStr (args.bind Args.file_path) "")
      let content := jsOrStr (args.bind Args.content) ""
      let st := scanTable SENSITIVE_PATHS .high (fun d => "HIGH: Sensitive file: " ++ d) path (.low, [])
      let st := if tool = "write" ∨ tool = "Write" ∨ tool = "edit" ∨ tool = "Edit" then
          let st := scanTable SYSTEM_PATHS .high (fun d => "HIGH: System path modification: " ++ d) path st
          let st := if testR reSecretAssign content then
              (.high, st.2 ++ ["HIGH: Writing credentials to file"]) else st
          let st := if content.length > 10000 ∧ st.1 = .low then
              (.medium, st.2 ++ ["Large file write: " ++ toString content.length ++ " bytes"]) else st
          st
        else st
      let st := if st.1 = .low ∧ path ≠ "" ∧ ¬(strIncludes path home = true) ∧ ¬(path.startsWith ".") then
          (.medium, st.2 ++ ["File outside home directory"]) else st
      st
    | .network =>
      let url := jsOrStr (args.bind Args.url) ""
      let st := scanTable SENSITIVE_URLS .high (fun d => "HIGH: Sensitive site: " ++ d) url (.low, [])
      let st := if url.startsWith "http://" ∧ st.1 = .low then
          (.medium, st.2 ++ ["Non-HTTPS URL"]) else st
      let st := if testR reIpUrl url then
          (.high, st.2 ++ ["HIGH: Direct IP address access"]) else st
      st
    | .browser =>
      let targetUrl := jsOrStr (args.bind Args.url) (jsOrStr (args.bind Args.targetUrl) "")
      let st := scanTable SENSITIVE_URLS .high (fun d => "HIGH: Browser accessing: " ++ d) targetUrl (.low, [])
      let st := if st.1 = .low then (.medium, st.2 ++ ["Browser automation"]) else st
      st
    | .message =>
      let target := jsOrStr (args.bind Args.target) (jsOrStr (args.bind Args.toRecipient) "")
      let action := jsOrStr (args.bind Args.action) ""
      let st : RiskLevel × List String := (.low, [])
      let st := if action = "send" ∧ target ≠ "" then
          (.high, st.2 ++ ["HIGH: Outbound message to: " ++ target]) else st
      let st := if action = "broadcast" then
          (.high, st.2 ++ ["HIGH: Broadcast message"]) else st
      let st := if st.1 = .low ∧ action ≠ "" then
          (.medium, st.2 ++ ["Message action: " ++ action]) else st
      st
    | .system =>
      let st : RiskLevel × List String := (.low, [])
      let st := if tool = "gateway" then
          let action := jsOrStr (args.bind Args.action) ""
          if action = "config.apply" ∨ action = "restart" ∨ action = "update.run" then
            (.high, st.2 ++ ["HIGH: Gateway modification: " ++ action])
          else (.medium, st.2 ++ ["Gateway: " ++ action])
        else st
      let st := if tool = "cron" then
          let action := jsOrStr (args.bind Args.action) ""
          if action = "add" ∨ action = "update" then
            (.high, st.2 ++ ["HIGH: Scheduled task modification"])
          else (.medium, st.2 ++ ["Cron: " ++ action])
        else st
      let st := if tool = "sessions_spawn" then (.medium, st.2 ++ ["Spawning sub-agent"]) else st
      let st := if tool = "nodes" then
          let action := jsOrStr (args.bind Args.action) ""
          if action = "camera_snap" ∨ action = "camera_clip" ∨ action = "screen_record" then
            (.high, st.2 ++ ["HIGH: Node capture: " ++ action])
          else st
        else st
      st
    | .memory => (.low, [])
    | .other => (.low, [])
  { level := st.1, category := category, flags := st.2, score := riskScore st.1 }

/-! ## Sequence detector (`GET /sequences` route and its helper predicates) -/

/-- A record as consumed by the sequence detector. Timestamps are epoch
milliseconds (`new Date(x) - new Date(y)` arithmetic on ISO strings). -/
structure Activity where
  tool : String
  arguments : Option Args
  timestamp : Int
deriving DecidableEq, Repr

/-- One `{tool, timestamp, summary}` evidence tuple of a sequence; the
summary is `Option` because optional chaining can leave it `undefined`. -/
structure ActionEntry where
  tool : String
  timestamp : Int
  summary : Option String
deriving DecidableEq, Repr

/-- A flagged suspicious sequence. -/
structure SuspiciousSequence where
  type : String
  description : String
  reason : String
  timestamp : Int
  actions : List ActionEntry
deriving DecidableEq, Repr

/-- `args.command` via optional chaining (`a.arguments?.command`). -/
def cmdOptA (a : Activity) : Option String := a.arguments.bind Args.command

/-- `args.path || args.file_path` (possibly `undefined`). -/
def pathOptA (a : Activity) : Option String :=
  jsOrOpt (a.arguments.bind Args.path) (a.arguments.bind Args.file_path)

/-! ### Helper predicates (`src/server.js` lines 860-940) -/

/-- The pattern list of `isSensitivePath` (all `/i`; note `/\.env/` and
`/\.ssh/` here are unanchored, unlike the classifier's table). -/
def seqSensitivePathPatterns : List Rgx := [
  cat [pad, strI ".env", anyStar], cat [pad, strI ".ssh", anyStar],
  cat [pad, strI ".aws", anyStar], cat [pad, strI ".gnupg", anyStar],
  cat [pad, strI "password", anyStar], cat [pad, strI "secret", anyStar],
  cat [pad, strI "credential", anyStar], cat [pad, strI "token", anyStar],
  cat [pad, strI "keychain", anyStar], cat [pad, strI "id_rsa", anyStar],
  cat [pad, strI ".pem"], cat [pad, strI ".key"],
  cat [pad, strI "1password", anyStar], cat [pad, strI "bitwarden", anyStar],
  cat [pad, strI "lastpass", anyStar]]

/-- `isSensitivePath(path)`; a falsy (`undefined`/empty) path is `false`. -/
def isSensitivePath (path : String) : Bool :=
  if path = "" then false else seqSensitivePathPatterns.any fun r => testR r path

/-- `isNetworkCommand(cmd)`: `/\b(curl|wget|nc|netcat|ssh|scp|rsync)\b/i`. -/
def isNetworkCommand (cmd : String) : Bool :=
  if cmd = "" then false else
  testR (cat [lead, altL [strI "curl", strI "wget", strI "nc", strI "netcat",
                          strI "ssh", strI "scp", strI "rsync"], eow]) cmd

/-- `isSudoCommand(cmd)`: `/\bsudo\b/i`. -/
def isSudoCommand (cmd : String) : Bool :=
  if cmd = "" then false else testR (cat [lead, strI "sudo", eow]) cmd

/-- `isDestructiveCommand(cmd)`: `/\b(rm\s+-rf|chmod\s+777|dd\s+if=|mkfs)\b/i`.
The trailing `\b` after the `dd\s+if=` branch (which ends in the non-word
`=`) requires a following word character. -/
def isDestructiveCommand (cmd : String) : Bool :=
  if cmd = "" then false else
  testR (.seqr lead (altL [
      cat [strI "rm", ws1, strI "-rf", eow],
      cat [strI "chmod", ws1, strI "777", eow],
      cat [strI "dd", ws1, strI "if=", wdc, anyStar],
      cat [strI "mkfs", eow]])) cmd

/-- `isConfigFile(path)`: `/\.(env|json|ya?ml|toml|ini|conf|config)$/i`
or `/config/i`. -/
def isConfigFile (path : String) : Bool :=
  if path = "" then false else
  testR (cat [pad, chE '.', altL [strI "env", strI "json",
        cat [chI 'y', opt (chI 'a'), strI "ml"], strI "toml", strI "ini",
        strI "conf", strI "config"]]) path
  || testR (cat [pad, strI "config", anyStar]) path

/-- `[a-zA-Z0-9]`. -/
def alnumC : Rgx := .chr fun c => c.isAlpha || c.isDigit

/-- `containsSensitivePatterns(text)`: credential-shaped text heuristics. -/
def containsSensitivePatterns (text : String) : Bool :=
  if text = "" then false else
  [cat [pad, strE "sk-", rep 20 alnumC, .star alnumC, anyStar],      -- /sk-[a-zA-Z0-9]{20,}/
   cat [pad, rep 40 alnumC, .star alnumC, anyStar],                  -- /[a-zA-Z0-9]{40,}/
   cat [pad, strI "password", wsStar, .chr (fun c => c == ':' || c == '='), wsStar, nws1, anyStar],
   cat [pad, strI "api", opt (.chr fun c => c == '_' || c == '-'), strI "key",
        wsStar, .chr (fun c => c == ':' || c == '='), wsStar, nws1, anyStar],
   cat [pad, strI "token", wsStar, .chr (fun c => c == ':' || c == '='), wsStar, nws1, anyStar],
   cat [pad, strI "secret", wsStar, .chr (fun c => c == ':' || c == '='), wsStar, nws1, anyStar]
  ].any fun r => testR r text

/-- `isSSHKeyPath(path)`. -/
def isSSHKeyPath (path : String) : Bool :=
  if path = "" then false else
  testR (cat [pad, chE '.', .alt (strI "ssh") (strI "gnupg"), chE '/',
              altL [strI "id_", strI "authorized_keys", strI "known_hosts", strI "config"],
              anyStar]) path
  || testR (cat [pad, strI "id_", altL [strI "rsa", strI "ed25519", strI "ecdsa", strI "dsa"],
                 anyStar]) path

/-- `isDownloadCommand(cmd)`: `/\b(curl\s+(-O|--output|-o)|wget|aria2c)\b/i`. -/
def isDownloadCommand (cmd : String) : Bool :=
  if cmd = "" then false else
  testR (.seqr lead (altL [
      cat [strI "curl", ws1, altL [strI "-o", strI "--output", strI "-o"], eow],
      cat [strI "wget", eow], cat [strI "aria2c", eow]])) cmd

/-- `isExecuteCommand(cmd)`:
`/\b(bash|sh|zsh|chmod\s+\+x|\.\/|python|node|ruby|perl)\s/i`. The `\.\/`
branch starts with a non-word character, so its leading `\b` requires a
preceding word character. -/
def isExecuteCommand (cmd : String) : Bool :=
  if cmd = "" then false else
  testR (.alt
      (cat [lead, altL [strI "bash", strI "sh", strI "zsh",
            cat [strI "chmod", ws1, strI "+x"], strI "python", strI "node",
            strI "ruby", strI "perl"], .chr wsChar, anyStar])
      (cat [pad, wdc, strI "./", .chr wsChar, anyStar])) cmd

/-- `isPasswordManagerCommand(cmd)`. -/
def isPasswordManagerCommand (cmd : String) : Bool :=
  if cmd = "" then false else
  testR (.seqr lead (altL [
      cat [strI "op", ws1, altL [strI "read", strI "get", strI "item"], eow],
      cat [strI "bw", ws1, .alt (strI "get") (strI "list"), eow],
      cat [strI "security", ws1, strI "find-", .alt (strI "generic") (strI "internet"),
           strI "-password", eow],
      cat [strI "pass", ws1, strI "show", eow]])) cmd

/-- `isPersistencePath(path)`:
`/LaunchAgents|LaunchDaemons|cron\.d|systemd|autostart|init\.d/i`. -/
def isPersistencePath (path : String) : Bool :=
  if path = "" then false else
  [cat [pad, strI "launchagents", anyStar], cat [pad, strI "launchdaemons", anyStar],
   cat [pad, strI "cron.d", anyStar], cat [pad, strI "systemd", anyStar],
   cat [pad, strI "autostart", anyStar], cat [pad, strI "init.d", anyStar]
  ].any fun r => testR r path

/-- `getSummary(item)`. The default branch renders a fixed placeholder for
`JSON.stringify(args).substring(0, 60)`; it is unreachable from the only
call site (pattern 8 only matches `exec`, `web_fetch` or `message`). -/
def getSummary (item : Activity) : String :=
  let args := item.arguments.getD {}
  match item.tool with
  | "exec" =>
      (match args.command with
       | some c => if c.take 60 = "" then "(command)" else c.take 60
       | none => "(command)")
  | "web_fetch" => jsOrStr args.url "(url)"
  | "message" => jsShow args.action ++ " to " ++ jsShow (jsOrOpt args.target args.channel)
  | _ => "(args)"

/-! ### Inline regexes of the pattern catalogue -/

/-- Pattern 5's `/\bssh\s+\w+@/i`. -/
def reSshConn : Rgx := cat [lead, strI "ssh", ws1, wd1, chE '@', anyStar]

/-- Pattern 6's `/\bgit\s+clone\b/i`. -/
def reGitClone : Rgx := cat [lead, strI "git", ws1, strI "clone", eow]

/-- Pattern 6's `/\b(npm\s+install|pip\s+install|yarn\s+install|pnpm\s+install)\b/i`. -/
def reInstallCmd : Rgx :=
  .seqr lead (.seqr (altL [
      cat [strI "npm", ws1, strI "install"], cat [strI "pip", ws1, strI "install"],
      cat [strI "yarn", ws1, strI "install"], cat [strI "pnpm", ws1, strI "install"]]) eow)

/-- Pattern 10's `/\bcrontab\b/i`. -/
def reCrontabWord : Rgx := cat [lead, strI "crontab", eow]

/-- Pattern 10's `/launchctl\s+load/i` (no word boundary). -/
def reLaunchctlLoad : Rgx := cat [pad, strI "launchctl", ws1, strI "load", anyStar]

/-- Pattern 10's `/systemctl\s+(enable|start)/i`. -/
def reSystemctlEnable : Rgx :=
  cat [pad, strI "systemctl", ws1, .alt (strI "enable") (strI "start"), anyStar]

/-- Pattern 12's `/\b(imagesnap|screencapture|ffmpeg.*avfoundation|afrecord)\b/i`. -/
def reMediaCapture : Rgx :=
  .seqr lead (.seqr (altL [strI "imagesnap", strI "screencapture",
      cat [strI "ffmpeg", dotStar, strI "avfoundation"], strI "afrecord"]) eow)

/-- Pattern 13's
`/\bsecurity\s+(find-generic-password|find-internet-password|dump-keychain)\b/i`. -/
def reKeychain : Rgx :=
  .seqr lead (.seqr (.seqr (strI "security") (.seqr ws1 (altL [
      strI "find-generic-password", strI "find-internet-password", strI "dump-keychain"]))) eow)

/-! ### Sequence constructors (the object literals pushed per pattern) -/

def mkSeqCredNet (cur next : Activity) : SuspiciousSequence :=
  { type := "Credential Access → Network",
    description := "Read " ++ jsShow (pathOptA cur) ++ " then executed network command",
    reason := "Sensitive file was read shortly before network activity, potential data exfiltration",
    timestamp := cur.timestamp,
    actions := [⟨cur.tool, cur.timestamp, pathOptA cur⟩,
                ⟨next.tool, next.timestamp, (cmdOptA next).map (·.take 100)⟩] }

def mkSeqCredFetch (cur next : Activity) : SuspiciousSequence :=
  { type := "Credential Access → Web Fetch",
    description := "Read " ++ jsShow (pathOptA cur) ++ " then fetched "
      ++ jsShow (next.arguments.bind Args.url),
    reason := "Sensitive file was read shortly before external request, potential credential leak",
    timestamp := cur.timestamp,
    actions := [⟨cur.tool, cur.timestamp, pathOptA cur⟩,
                ⟨next.tool, next.timestamp, next.arguments.bind Args.url⟩] }

def mkSeqMulti (cur : Activity) (nearby : List Activity) : SuspiciousSequence :=
  { type := "Multiple Privileged Operations",
    description := toString (nearby.length + 1) ++ " dangerous commands executed in quick succession",
    reason := "Rapid execution of privileged/destructive commands may indicate automated attack or mistake",
    timestamp := cur.timestamp,
    actions := (cur :: nearby).map fun a => ⟨a.tool, a.timestamp, (cmdOptA a).map (·.take 100)⟩ }

def mkSeqConfigRestart (cur next : Activity) : SuspiciousSequence :=
  { type := "Config Change → Restart",
    description := "Modified " ++ jsShow (pathOptA cur) ++ " then triggered gateway restart",
    reason := "Configuration change followed by restart - verify the changes were intentional",
    timestamp := cur.timestamp,
    actions := [⟨cur.tool, cur.timestamp, pathOptA cur⟩,
                ⟨next.tool, next.timestamp,
                 some ("gateway " ++ jsShow (next.arguments.bind Args.action))⟩] }

def mkSeqMsgLeak (cur : Activity) : SuspiciousSequence :=
  { type := "Potential Data Leak via Message",
    description := "Message sent containing sensitive patterns",
    reason := "Outbound message contains patterns that look like credentials or API keys",
    timestamp := cur.timestamp,
    actions := [⟨cur.tool, cur.timestamp,
                 some ("message to " ++ jsShow (cur.arguments.bind Args.target))⟩] }

def mkSeqSshConn (cur next : Activity) : SuspiciousSequence :=
  { type := "SSH Key Access → Connection",
    description := "Read SSH key then initiated SSH connection",
    reason := "SSH key was accessed before establishing connection - verify this was authorized",
    timestamp := cur.timestamp,
    actions := [⟨cur.tool, cur.timestamp, pathOptA cur⟩,
                ⟨next.tool, next.timestamp, (cmdOptA next).map (·.take 80)⟩] }

def mkSeqClone (cur next : Activity) : SuspiciousSequence :=
  { type := "Clone → Package Install",
    description := "Cloned repository then ran package install",
    reason := "Installing dependencies from cloned repo - potential supply chain risk if repo is untrusted",
    timestamp := cur.timestamp,
    actions := [⟨cur.tool, cur.timestamp, (cmdOptA cur).map (·.take 80)⟩,
                ⟨next.tool, next.timestamp, (cmdOptA next).map (·.take 80)⟩] }

def mkSeqDownloadExec (cur next : Activity) : SuspiciousSequence :=
  { type := "Download → Execute",
    description := "Downloaded file then executed something",
    reason := "File was downloaded and executed shortly after - classic malware pattern",
    timestamp := cur.timestamp,
    actions := [⟨cur.tool, cur.timestamp, (cmdOptA cur).map (·.take 80)⟩,
                ⟨next.tool, next.timestamp, (cmdOptA next).map (·.take 80)⟩] }

def mkSeqPwMgr (cur next : Activity) : SuspiciousSequence :=
  { type := "Password Manager → Outbound",
    description := "Accessed password manager then sent data externally",
    reason := "Credentials were accessed from password manager before outbound activity",
    timestamp := cur.timestamp,
    actions := [⟨cur.tool, cur.timestamp, (cmdOptA cur).map (·.take 60)⟩,
                ⟨next.tool, next.timestamp, some (getSummary next)⟩] }

def mkSeqBulk (cur : Activity) (riw : List Activity) : SuspiciousSequence :=
  { type := "Bulk File Enumeration",
    description := toString riw.length ++ " files read in under 1 minute",
    reason := "Rapid file access may indicate reconnaissance or data harvesting",
    timestamp := cur.timestamp,
    actions := (riw.take 5).map fun a => ⟨a.tool, a.timestamp, pathOptA a⟩ }

def mkSeqPersist (cur : Activity) (cmd : String) : SuspiciousSequence :=
  { type := "Persistence Mechanism",
    description := "Created scheduled task or service",
    reason := "Agent created a persistence mechanism - verify this was intentional",
    timestamp := cur.timestamp,
    actions := [⟨cur.tool, cur.timestamp, some (cmd.take 100)⟩] }

def mkSeqPersistFile (cur : Activity) : SuspiciousSequence :=
  { type := "Persistence via File",
    description := "Wrote to startup/scheduled task location",
    reason := "File written to persistence location - will run automatically",
    timestamp := cur.timestamp,
    actions := [⟨cur.tool, cur.timestamp, pathOptA cur⟩] }

def mkSeqMedia (cur : Activity) (cmd : String) : SuspiciousSequence :=
  { type := "Media Capture",
    description := "Captured camera, screen, or audio",
    reason := "Agent accessed camera/microphone/screen - verify this was requested",
    timestamp := cur.timestamp,
    actions := [⟨cur.tool, cur.timestamp, some (cmd.take 100)⟩] }

def mkSeqKeychain (cur : Activity) (cmd : String) : SuspiciousSequence :=
  { type := "Keychain Access",
    description := "Extracted credentials from system keychain",
    reason := "Agent accessed macOS Keychain - high sensitivity operation",
    timestamp := cur.timestamp,
    actions := [⟨cur.tool, cur.timestamp, some (cmd.take 100)⟩] }

/-! ### Per-pattern lookahead scans

Each window-bounded pattern scans forward (`for j = i+1; ...`) until the
time delta exceeds the window (`break`), returning the sequence for the
first qualifying correlated event (`push; break`) or nothing. -/

/-- Pattern 1 lookahead: network `exec` or `web_fetch` within `windowMs`. -/
def scanP1 (windowMs : Int) (cur : Activity) : List Activity → Option SuspiciousSequence
  | [] => none
  | next :: rest =>
    if next.timestamp - cur.timestamp > windowMs then none
    else if next.tool = "exec" ∧ isNetworkCommand (jsOrStr (cmdOptA next) "") = true then
      some (mkSeqCredNet cur next)
    else if next.tool = "web_fetch" then some (mkSeqCredFetch cur next)
    else scanP1 windowMs cur rest

/-- Pattern 3 lookahead: gateway restart/config.apply within `windowMs`. -/
def scanP3 (windowMs : Int) (cur : Activity) : List Activity → Option SuspiciousSequence
  | [] => none
  | next :: rest =>
    if next.timestamp - cur.timestamp > windowMs then none
    else if next.tool = "gateway" ∧ ((next.arguments.bind Args.action) = some "restart"
        ∨ (next.arguments.bind Args.action) = some "config.apply") then
      some (mkSeqConfigRestart cur next)
    else scanP3 windowMs cur rest

/-- Pattern 5 lookahead: `ssh user@host` exec within `windowMs`. -/
def scanP5 (windowMs : Int) (cur : Activity) : List Activity → Option SuspiciousSequence
  | [] => none
  | next :: rest =>
    if next.timestamp - cur.timestamp > windowMs then none
    else if next.tool = "exec" ∧ testR reSshConn (jsOrStr (cmdOptA next) "") = true then
      some (mkSeqSshConn cur next)
    else scanP5 windowMs cur rest

/-- Pattern 6 lookahead: package install within `windowMs * 2`. -/
def scanP6 (windowMs : Int) (cur : Activity) : List Activity → Option SuspiciousSequence
  | [] => none
  | next :: rest =>
    if next.timestamp - cur.timestamp > windowMs * 2 then none
    else if next.tool = "exec" ∧ testR reInstallCmd (jsOrStr (cmdOptA next) "") = true then
      some (mkSeqClone cur next)
    else scanP6 windowMs cur rest

/-- Pattern 7 lookahead: execute command within `windowMs`. -/
def scanP7 (windowMs : Int) (cur : Activity) : List Activity → Option SuspiciousSequence
  | [] => none
  | next :: rest =>
    if next.timestamp - cur.timestamp > windowMs then none
    else if next.tool = "exec" ∧ isExecuteCommand (jsOrStr (cmdOptA next) "") = true then
      some (mkSeqDownloadExec cur next)
    else scanP7 windowMs cur rest

/-- Pattern 8 lookahead: any outbound action within `windowMs`. -/
def scanP8 (windowMs : Int) (cur : Activity) : List Activity → Option SuspiciousSequence
  | [] => none
  | next :: rest =>
    if next.timestamp - cur.timestamp > windowMs then none
    else if (next.tool = "exec" ∧ isNetworkCommand (jsOrStr (cmdOptA next) "") = true)
        ∨ next.tool = "web_fetch"
        ∨ (next.tool = "message" ∧ (next.arguments.bind Args.action) = some "send") then
      some (mkSeqPwMgr cur next)
    else scanP8 windowMs cur rest

/-- Pattern 2's `nearby` collection over indices `i-3 ≤ j ≤ i+3`, `j ≠ i`. -/
def p2Nearby (windowMs : Int) (sorted : List Activity) (i : Nat) (cur : Activity) : List Activity :=
  (List.range 7).filterMap fun k =>
    let j : Int := (i : Int) - 3 + (k : Int)
    if j < 0 ∨ j = (i : Int) then none
    else match sorted[j.toNat]? with
      | none => none
      | some other =>
        if ((other.timestamp - cur.timestamp).natAbs : Int) ≤ windowMs ∧ other.tool = "exec" then
          let otherCmd := jsOrStr (cmdOptA other) ""
          if isSudoCommand otherCmd = true ∨ isDestructiveCommand otherCmd = true then some other
          else none
        else none

/-- Pattern 9's burst collection: up to 20 records starting at `i` (the
list argument is `sorted.drop i`, whose head is the trigger itself),
stopping at the first record more than 60 s after the trigger, keeping
the reads. -/
def readsWithin (cur : Activity) : Nat → List Activity → List Activity
  | 0, _ => []
  | _, [] => []
  | fuel + 1, other :: rest =>
    if other.timestamp - cur.timestamp > 60000 then []
    else if other.tool = "read" ∨ other.tool = "Read" then
      other :: readsWithin cur fuel rest
    else readsWithin cur fuel rest

/-- Pattern 9's de-duplication guard: an already-emitted Bulk File
Enumeration whose trigger is within 60 s of `cur`. -/
def bulkFlagged (seqs : List SuspiciousSequence) (cur : Activity) : Bool :=
  seqs.any fun s =>
    decide (s.type = "Bulk File Enumeration" ∧ (s.timestamp - cur.timestamp).natAbs < 60000)

/-- One iteration of the detector's main loop (`for i`), evaluating all
13 pattern blocks at index `i` and appending their findings to `acc`. -/
def detectStep (windowMs : Int) (sorted : List Activity) (acc : List SuspiciousSequence)
    (i : Nat) : List SuspiciousSequence :=
  match sorted[i]? with
  | none => acc
  | some cur =>
    let args := cur.arguments.getD {}
    let rest := sorted.drop (i + 1)
    let cmd := jsOrStr args.command ""
    let pth := (jsOrOpt args.path args.file_path).getD ""
    let s := acc ++ (if (cur.tool = "read" ∨ cur.tool = "Read") ∧ isSensitivePath pth = true then
        (scanP1 windowMs cur rest).toList else [])
    let s := s ++ (if cur.tool = "exec" ∧ (isSudoCommand cmd = true ∨ isDestructiveCommand cmd = true) then
        (let nearby := p2Nearby windowMs sorted i cur
         if 2 ≤ nearby.length then [mkSeqMulti cur nearby] else []) else [])
    let s := s ++ (if (cur.tool = "edit" ∨ cur.tool = "Edit" ∨ cur.tool = "write" ∨ cur.tool = "Write")
        ∧ isConfigFile pth = true then (scanP3 windowMs cur rest).toList else [])
    let s := s ++ (if cur.tool = "message" ∧ args.action = some "send"
        ∧ containsSensitivePatterns (jsOrStr args.message "") = true then [mkSeqMsgLeak cur] else [])
    let s := s ++ (if (cur.tool = "read" ∨ cur.tool = "Read") ∧ isSSHKeyPath pth = true then
        (scanP5 windowMs cur rest).toList else [])
    let s := s ++ (if cur.tool = "exec" ∧ testR reGitClone cmd = true then
        (scanP6 windowMs cur rest).toList else [])
    let s := s ++ (if cur.tool = "exec" ∧ isDownloadCommand cmd = true then
        (scanP7 windowMs cur rest).toList else [])
    let s := s ++ (if cur.tool = "exec" ∧ isPasswordManagerCommand cmd = true then
        (scanP8 windowMs cur rest).toList else [])
    let s := s ++ (if cur.tool = "read" ∨ cur.tool = "Read" then
        (let riw := readsWithin cur 20 (sorted.drop i)
         if 10 ≤ riw.length then (if bulkFlagged s cur then [] else [mkSeqBulk cur riw]) else [])
      else [])
    let s := s ++ (if cur.tool = "exec" ∧ (testR reCrontabWord cmd = true
        ∨ testR reLaunchctlLoad cmd = true ∨ testR reSystemctlEnable cmd = true) then
        [mkSeqPersist cur cmd] else [])
    let s := s ++ (if (cur.tool = "write" ∨ cur.tool = "Write") ∧ isPersistencePath pth = true then
        [mkSeqPersistFile cur] else [])
    let s := s ++ (if cur.tool = "exec" ∧ testR reMediaCapture cmd = true then
        [mkSeqMedia cur cmd] else [])
    let s := s ++ (if cur.tool = "exec" ∧ testR reKeychain cmd = true then
        [mkSeqKeychain cur cmd] else [])
    s

/-- Post-scan deduplication: keep a finding only if it is the first with
its `(type, timestamp)` pair (`arr.findIndex(...) === i`). -/
def dedupeSeqs (l : List SuspiciousSequence) : List SuspiciousSequence :=
  (l.enum.filter fun p =>
      l.findIdx? (fun s => s.type == p.2.type && s.timestamp == p.2.timestamp) == some p.1).map
    Prod.snd

/-- The sequence detector: sort by timestamp, run the 13-pattern scan at
every index, deduplicate. -/
def detectSequences (windowMs : Int) (activity : List Activity) : List SuspiciousSequence :=
  let sorted := activity.mergeSort fun a b => decide (a.timestamp ≤ b.timestamp)
  dedupeSeqs ((List.range sorted.length).foldl (detectStep windowMs sorted) [])

/-- The route's response payload: at most 20 sequences plus the total. -/
def sequencesResponse (windowMs : Int) (activity : List Activity) :
    List SuspiciousSequence × Nat :=
  let unique := detectSequences windowMs activity
  (unique.take 20, unique.length)

/-! ## Log tailer (`processNewLogEntries`, `src/server.js` lines 111-187)

`readFileSync` and `JSON.parse` are external collaborators: the file
content arrives as a `String` argument, and `parseJson` abstracts
`JSON.parse` plus the field accesses on the parsed object (a throwing
parse is `none`, matching the per-line `try/catch` skip). Wall-clock
reads (`new Date().toISOString()`) arrive as the `now` argument. -/

/-- One element of a parsed log entry's `message.content` array. -/
inductive ContentItem where
  | toolCall (name : String) (id : Option String) (args : Option Args)
  | toolResult (name : String) (id : Option String) (content : Option String) (isError : Bool)
  | other
deriving DecidableEq, Repr

/-- A parsed log line (`JSON.parse(line)` result, as far as the code
inspects it). `content` is `none` when `entry.message?.content` is absent
or not an array. -/
structure LogEntry where
  type : String
  content : Option (List ContentItem)
  timestamp : Option String
deriving DecidableEq, Repr

/-- An entry pushed onto the stream buffer. -/
inductive StreamRecord where
  | toolCall (tool : String) (id : Option String) (args : Option Args)
      (timestamp : Option String) (risk : RiskVerdict) (streamedAt sessionFile : String)
  | toolResult (tool : String) (id : Option String) (result : Option String) (isError : Bool)
      (timestamp : Option String) (streamedAt sessionFile : String)
deriving DecidableEq, Repr

/-- A call to `sendAlert(activity, risk)` (the dispatcher applies its own
severity allow-list downstream; the tailer emits one call per tool call). -/
structure AlertCall where
  tool : String
  arguments : Option Args
  timestamp : Option String
  risk : RiskVerdict
deriving DecidableEq, Repr

/-- Stream-buffer records and alert calls produced by one log line. -/
def lineRecords (streamingEnabled alertEnabled : Bool) (home now sessionFile : String)
    (parseJson : String → Option LogEntry) (line : String) :
    List StreamRecord × List AlertCall :=
  if jsTrim line = "" then ([], [])
  else match parseJson line with
  | none => ([], [])
  | some entry =>
    if entry.type = "message" then
      match entry.content with
      | some items =>
        items.foldl (fun res item =>
          match item with
          | .toolCall name id args =>
            let risk := analyzeRisk home ⟨name, args⟩
            let alerts := if alertEnabled then res.2 ++ [⟨name, args, entry.timestamp, risk⟩] else res.2
            let buf := if streamingEnabled then
                res.1 ++ [.toolCall name id args entry.timestamp risk now sessionFile]
              else res.1
            (buf, alerts)
          | .toolResult name id content isErr =>
            let buf := if streamingEnabled then
                res.1 ++ [.toolResult name id (content.map (·.take 500)) isErr entry.timestamp now sessionFile]
              else res.1
            (buf, res.2)
          | .other => res) (([], []) : List StreamRecord × List AlertCall)
      | none => ([], [])
    else ([], [])

/-- Records and alerts of a list of new lines, in order. -/
def collectLines (streamingEnabled alertEnabled : Bool) (home now sessionFile : String)
    (parseJson : String → Option LogEntry) (ls : List String) :
    List StreamRecord × List AlertCall :=
  ls.foldl (fun res line =>
      let r := lineRecords streamingEnabled alertEnabled home now sessionFile parseJson line
      (res.1 ++ r.1, res.2 ++ r.2)) (([], []) : List StreamRecord × List AlertCall)

/-- The tailer's state and outputs after one `processNewLogEntries` call. -/
structure ProcResult where
  lastProcessedLines : String → Nat
  streamBuffer : List StreamRecord
  alerts : List AlertCall
  flushTriggered : Bool

/-- `processNewLogEntries(filePath)`. The per-source cursor map
`lastProcessedLines` defaults to 0 for unseen paths (`|| 0`); the final
flush (fire-and-forget when the batch size is reached) is reported as the
`flushTriggered` flag. -/
def processNewLogEntries (streamingEnabled alertEnabled : Bool) (batchSize : Nat)
    (home now : String) (parseJson : String → Option LogEntry)
    (lastProcessedLines : String → Nat) (streamBuffer : List StreamRecord)
    (filePath content : String) : ProcResult :=
  if ¬streamingEnabled ∧ ¬alertEnabled then ⟨lastProcessedLines, streamBuffer, [], false⟩
  else
    let lines := jsSplitLines content
    let lastLine := lastProcessedLines filePath
    let newLines := lines.drop lastLine
    let lastProcessedLines' := fun p => if p = filePath then lines.length else lastProcessedLines p
    let sessionFile := (filePath.splitOn "/").getLastD ""
    let out := collectLines streamingEnabled alertEnabled home now sessionFile parseJson newLines
    let streamBuffer' := streamBuffer ++ out.1
    ⟨lastProcessedLines', streamBuffer', out.2,
     streamingEnabled && decide (batchSize ≤ streamBuffer'.length)⟩

/-! ## Delivery buffer (`flushStreamBuffer`, `src/server.js` lines 64-108) -/

/-- `streamingStats`. -/
structure StreamingStats where
  totalSent : Nat
  totalFailed : Nat
  lastSentAt : Option String
  lastError : Option String
deriving DecidableEq, Repr

/-- The mutable state touched by a flush. -/
structure FlushState where
  streamBuffer : List StreamRecord
  stats : StreamingStats
deriving DecidableEq, Repr

/-- Outcome of the network delivery attempt: `ok` for a 2xx response,
`fail` for a non-2xx response or network error (carrying the JS error
message, e.g. `"HTTP 500: Internal Server Error"`). -/
inductive FlushOutcome where
  | ok
  | fail (message : String)
deriving DecidableEq, Repr

/-- JS falsiness of an optional string (`undefined`, `null` or `""`). -/
def jsFalsyStr (o : Option String) : Bool :=
  match o with
  | none => true
  | some s => s = ""

/-- `arr.slice(-n)`: the suffix of the last `n` elements. -/
def takeLast (n : Nat) (l : List α) : List α := l.drop (l.length - n)

/-- `flushStreamBuffer()`. The buffer is swapped with `[]` before the
network call; `enqueuedDuringFlush` are the records pushed while the
`fetch` is in flight (they are in the buffer when the handler resumes,
and there are none when the guard returns early since no call is made).
On failure the last 100 records of the failed batch are requeued ahead
of them and the result is capped to the last 500. -/
def flushStreamBuffer (enabled : Bool) (endpoint : Option String) (now : String)
    (outcome : FlushOutcome) (enqueuedDuringFlush : List StreamRecord)
    (s : FlushState) : FlushState :=
  if ¬enabled ∨ jsFalsyStr endpoint = true ∨ s.streamBuffer = [] then s
  else
    let batch := s.streamBuffer
    let buffer := enqueuedDuringFlush
    match outcome with
    | .ok =>
        ⟨buffer, { totalSent := s.stats.totalSent + batch.length,
                   totalFailed := s.stats.totalFailed,
                   lastSentAt := some now, lastError := none }⟩
    | .fail msg =>
        ⟨takeLast 500 (takeLast 100 batch ++ buffer),
         { s.stats with totalFailed := s.stats.totalFailed + batch.length,
                        lastError := some msg }⟩

/-! ## Spec-side definitions and concrete instances used by the theorems -/

/-- Does any rule of the table match? -/
def shellAny (pats : List Pat) (cmd : String) : Bool :=
  pats.any fun p => testR p.re cmd

/-- Spec-side description of the shell branch's final level: the highest
tier with a matching rule. -/
def shellLevelSpec (cmd : String) : RiskLevel :=
  if shellAny CRITICAL_SHELL_PATTERNS cmd then .critical
  else if shellAny HIGH_RISK_SHELL_PATTERNS cmd then .high
  else if shellAny MEDIUM_RISK_SHELL_PATTERNS cmd then .medium
  else .low

/-- Spec-side description of the shell branch's flags under the amended
claim: only the winning tier's matching rules contribute evidence, in
table (first-match) order. -/
def shellFlagsSpec (cmd : String) : List String :=
  if shellAny CRITICAL_SHELL_PATTERNS cmd then
    (CRITICAL_SHELL_PATTERNS.filter fun p => testR p.re cmd).map fun p => "CRITICAL: " ++ p.desc
  else if shellAny HIGH_RISK_SHELL_PATTERNS cmd then
    (HIGH_RISK_SHELL_PATTERNS.filter fun p => testR p.re cmd).map fun p => "HIGH: " ++ p.desc
  else if shellAny MEDIUM_RISK_SHELL_PATTERNS cmd then
    (MEDIUM_RISK_SHELL_PATTERNS.filter fun p => testR p.re cmd).map fun p => p.desc
  else []

/-- A parser stub for concrete tailer scenarios: every line parses to a
message entry holding one tool call (so one processed line produces
exactly one stream record). -/
def demoParse (_line : String) : Option LogEntry :=
  some ⟨"message", some [.toolCall "read" none none], none⟩

/-- A record qualifying as the correlated event of pattern 1. -/
def p1Qualifies (x : Activity) : Prop :=
  (x.tool = "exec" ∧ isNetworkCommand (jsOrStr (cmdOptA x) "") = true) ∨ x.tool = "web_fetch"

instance (x : Activity) : Decidable (p1Qualifies x) := by
  unfold p1Qualifies; infer_instance

/-- A record qualifying as the correlated event of pattern 5. -/
def p5Qualifies (x : Activity) : Prop :=
  x.tool = "exec" ∧ testR reSshConn (jsOrStr (cmdOptA x) "") = true

instance (x : Activity) : Decidable (p5Qualifies x) := by
  unfold p5Qualifies; infer_instance

/-- Ten read-tool records with given argument bags and timestamps. -/
def tenReads (ts : Fin 10 → Int) (ar : Fin 10 → Option Args) : List Activity :=
  List.ofFn fun i => ⟨"read", ar i, ts i⟩

/-- A concrete stream record for delivery-buffer scenarios. -/
def demoRecord : StreamRecord :=
  .toolResult "read" none none false none "2024-01-01T00:00:00Z" "f.jsonl"

/-- A concrete failed batch of five records. -/
def fiveRecords : List StreamRecord :=
  [demoRecord, demoRecord, demoRecord, demoRecord, demoRecord]

/-- A credential-file read at time 0. -/
def credReadRec : Activity := ⟨"read", some { path := some "/app/.env" }, 0⟩

/-- A network command execution at time `t`. -/
def curlExecRec (t : Int) : Activity := ⟨"exec", some { command := some "curl example.com" }, t⟩

/-- An SSH-key read at time 0. -/
def sshReadRec : Activity := ⟨"read", some { path := some "~/.ssh/id_rsa" }, 0⟩

/-- An SSH connection command at time `t`. -/
def sshExecRec (t : Int) : Activity := ⟨"exec", some { command := some "ssh user@host" }, t⟩

/-- A read of an innocuous file at time `t`. -/
def readAt (t : Int) : Activity := ⟨"read", some { path := some "n1.txt" }, t⟩

/-! ## Generic lemmas about the table scans -/

theorem scanTable_fst (pats : List Pat) (lvl : RiskLevel) (tag : String → String)
    (x : String) (st : RiskLevel × List String) :
    (scanTable pats lvl tag x st).1 =
      if pats.any (fun p => testR p.re x) then lvl else st.1 := by
  induction pats generalizing st with
  | nil => simp [scanTable]
  | cons p ps ih =>
    show (scanTable ps lvl tag x (if testR p.re x then (lvl, st.2 ++ [tag p.desc]) else st)).1 = _
    by_cases h : testR p.re x
    · rw [if_pos h, ih]; simp [h]
    · rw [if_neg h, ih]; simp [h]

theorem scanTable_snd (pats : List Pat) (lvl : RiskLevel) (tag : String → String)
    (x : String) (st : RiskLevel × List String) :
    (scanTable pats lvl tag x st).2 =
      st.2 ++ (pats.filter (fun p => testR p.re x)).map fun p => tag p.desc := by
  induction pats generalizing st with
  | nil => simp [scanTable]
  | cons p ps ih =>
    show (scanTable ps lvl tag x (if testR p.re x then (lvl, st.2 ++ [tag p.desc]) else st)).2 = _
    by_cases h : testR p.re x
    · rw [if_pos h, ih]; simp [h, List.filter_cons]
    · rw [if_neg h, ih]; simp [h, List.filter_cons]

/-- Pair form of a table scan from the initial state `(low, [])`. -/
theorem scanTable_eq_pair (pats : List Pat) (lvl : RiskLevel) (tag : String → String)
    (x : String) :
    scanTable pats lvl tag x (.low, []) =
      ((if pats.any (fun p => testR p.re x) then lvl else .low),
       (pats.filter (fun p => testR p.re x)).map fun p => tag p.desc) :=
  Prod.ext (by rw [scanTable_fst]) (by rw [scanTable_snd]; simp)

/-- If no rule of a table matches, the filtered table is empty. -/
theorem filter_nil_of_not_any {pats : List Pat} {x : String}
    (h : ¬ pats.any (fun p => testR p.re x) = true) :
    pats.filter (fun p => testR p.re x) = [] := by
  rw [List.filter_eq_nil_iff]
  intro p hp hm
  exact h (List.any_eq_true.mpr ⟨p, hp, hm⟩)

theorem takeLast_length_le (n : Nat) (l : List α) : (takeLast n l).length ≤ n := by
  simp [takeLast]; omega

theorem takeLast_of_le {n : Nat} {l : List α} (h : l.length ≤ n) : takeLast n l = l := by
  simp [takeLast, Nat.sub_eq_zero_of_le h]

/-- C1 counterexample: the shell command `sudo eval` matches the critical
`sudo` rule and the high-tier `eval` rule, yet the final verdict's flags
contain only the critical evidence — the matching lower-tier rule's
evidence string is NOT appended, contradicting the claim that all
matching rules' evidence is retained. -/
theorem analyzeRisk_drops_lower_tier_evidence :
    analyzeRisk "/Users/u" ⟨"exec", some { command := some "sudo eval" }⟩ =
      { level := .critical, category := .shell,
        flags := ["CRITICAL: Privileged command execution"], score := 4 }
    ∧ (∃ p ∈ HIGH_RISK_SHELL_PATTERNS,
        testR p.re "sudo eval" = true ∧ p.desc = "Dynamic code evaluation")
    ∧ "HIGH: Dynamic code evaluation"
        ∉ (analyzeRisk "/Users/u" ⟨"exec", some { command := some "sudo eval" }⟩).flags := by
  refine ⟨by decide, ?_, by decide⟩
  decide

/-- C1 (amended): for every shell-category record, the final level is the
highest tier with a matching rule, and `flags` holds exactly the evidence
strings of the matching rules of that winning tier, in table
(first-match) order; rules of lower tiers than the final level are not
evaluated and contribute no evidence. -/
theorem shell_flags_winning_tier (home tool : String) (args : Option Args)
    (h : categorize tool = .shell) :
    analyzeRisk home ⟨tool, args⟩ =
      { level := shellLevelSpec (jsOrStr (args.bind Args.command) ""),
        category := .shell,
        flags := shellFlagsSpec (jsOrStr (args.bind Args.command) ""),
        score := riskScore (shellLevelSpec (jsOrStr (args.bind Args.command) "")) } := by
  simp only [analyzeRisk, h]
  set cmd := jsOrStr (args.bind Args.command) "" with hcmd
  unfold shellLevelSpec shellFlagsSpec shellAny
  rw [scanTable_eq_pair]
  by_cases hc : CRITICAL_SHELL_PATTERNS.any (fun p => testR p.re cmd)
  · simp [hc, riskScore]
  · rw [filter_nil_of_not_any hc]
    simp only [hc, Bool.false_eq_true, if_false, List.map_nil, reduceCtorEq, reduceIte, ne_eq,
      not_false_eq_true, if_true]
    rw [scanTable_eq_pair]
    by_cases hh : HIGH_RISK_SHELL_PATTERNS.any (fun p => testR p.re cmd)
    · simp [hh, riskScore]
    · rw [filter_nil_of_not_any hh]
      simp only [hh, Bool.false_eq_true, if_false, List.map_nil, reduceCtorEq, reduceIte, ne_eq,
        not_false_eq_true, if_true]
      rw [scanTable_eq_pair]
      by_cases hm : MEDIUM_RISK_SHELL_PATTERNS.any (fun p => testR p.re cmd)
      · simp [hm, riskScore]
      · rw [filter_nil_of_not_any hm]
        simp [hm, riskScore]

/-- Witness for the amended C1 theorem at the concrete record
`{tool: "exec", arguments: {command: "sudo eval"}}`. -/
theorem shell_flags_winning_tier_witness :
    categorize "exec" = .shell
    ∧ analyzeRisk "/Users/u" ⟨"exec", some { command := some "sudo eval" }⟩ =
      { level := shellLevelSpec (jsOrStr ((some { command := some "sudo eval" } : Option Args).bind Args.command) ""),
        category := .shell,
        flags := shellFlagsSpec (jsOrStr ((some { command := some "sudo eval" } : Option Args).bind Args.command) ""),
        score := riskScore (shellLevelSpec (jsOrStr ((some { command := some "sudo eval" } : Option Args).bind Args.command) "")) } :=
  ⟨by decide, shell_flags_winning_tier "/Users/u" "exec" (some { command := some "sudo eval" }) (by decide)⟩

/-- C2: a failed flush (non-2xx or network error) requeues the last 100
records of the failed batch ahead of any records enqueued during the
flush, caps the resulting buffer at 500, adds the full batch size to
`totalFailed`, leaves `totalSent` unchanged, and records the error
message; when the batch fits the bounds (e.g. 5 records, nothing
enqueued meanwhile), exactly the batch is back in the buffer. -/
theorem flushStreamBuffer_failure_requeues (endpoint : Option String) (now msg : String)
    (mid : List StreamRecord) (s : FlushState)
    (hep : jsFalsyStr endpoint = false) (hbuf : s.streamBuffer ≠ []) :
    flushStreamBuffer true endpoint now (.fail msg) mid s =
      ⟨takeLast 500 (takeLast 100 s.streamBuffer ++ mid),
       { s.stats with totalFailed := s.stats.totalFailed + s.streamBuffer.length,
                      lastError := some msg }⟩
    ∧ (flushStreamBuffer true endpoint now (.fail msg) mid s).streamBuffer.length ≤ 500
    ∧ (flushStreamBuffer true endpoint now (.fail msg) mid s).stats.totalSent = s.stats.totalSent
    ∧ (s.streamBuffer.length ≤ 100 → s.streamBuffer.length + mid.length ≤ 500 →
        (flushStreamBuffer true endpoint now (.fail msg) mid s).streamBuffer
          = s.streamBuffer ++ mid) := by
  have hs : flushStreamBuffer true endpoint now (.fail msg) mid s =
      ⟨takeLast 500 (takeLast 100 s.streamBuffer ++ mid),
       { s.stats with totalFailed := s.stats.totalFailed + s.streamBuffer.length,
                      lastError := some msg }⟩ := by
    have hguard : ¬(¬true ∨ jsFalsyStr endpoint = true ∨ s.streamBuffer = []) := by
      simp [hep, hbuf]
    unfold flushStreamBuffer
    rw [if_neg hguard]
  refine ⟨hs, by simp only [hs]; exact takeLast_length_le _ _, by simp only [hs],
    fun h1 h2 => ?_⟩
  simp only [hs]
  show takeLast 500 (takeLast 100 s.streamBuffer ++ mid) = s.streamBuffer ++ mid
  rw [takeLast_of_le h1, takeLast_of_le (by simpa using h2)]

/-- Witness for C2: an HTTP-500 flush of a 5-record batch with an
otherwise empty buffer leaves exactly those 5 records in the buffer,
adds 5 to `totalFailed` and leaves `totalSent` unchanged. -/
theorem flushStreamBuffer_failure_requeues_witness :
    jsFalsyStr (some "https://sink.example/ingest") = false
    ∧ fiveRecords ≠ []
    ∧ (flushStreamBuffer true (some "https://sink.example/ingest") "2024-01-01T00:00:05Z"
        (.fail "HTTP 500: Internal Server Error") [] ⟨fiveRecords, ⟨7, 3, none, none⟩⟩).streamBuffer
        = fiveRecords ++ []
    ∧ (flushStreamBuffer true (some "https://sink.example/ingest") "2024-01-01T00:00:05Z"
        (.fail "HTTP 500: Internal Server Error") [] ⟨fiveRecords, ⟨7, 3, none, none⟩⟩).stats.totalFailed
        = 3 + fiveRecords.length
    ∧ (flushStreamBuffer true (some "https://sink.example/ingest") "2024-01-01T00:00:05Z"
        (.fail "HTTP 500: Internal Server Error") [] ⟨fiveRecords, ⟨7, 3, none, none⟩⟩).stats.totalSent
        = 7 := by
  have h := flushStreamBuffer_failure_requeues (some "https://sink.example/ingest")
    "2024-01-01T00:00:05Z" "HTTP 500: Internal Server Error" []
    ⟨fiveRecords, ⟨7, 3, none, none⟩⟩ (by decide) (by decide)
  refine ⟨by decide, by decide, h.2.2.2 (by decide) (by decide), ?_, h.2.2.1⟩
  rw [h.1]

/-- C10: with both streaming and alerting disabled, processing a changed
log file is a complete no-op — the cursor map, the stream buffer, the
emitted alerts and the flush trigger are all untouched — so a later call
with either feature enabled behaves exactly as if the disabled call had
never happened (the appended lines are still beyond the old cursor). -/
theorem processNewLogEntries_disabled_noop (batchSize : Nat) (home now : String)
    (parseJson : String → Option LogEntry) (lpl : String → Nat) (buf : List StreamRecord)
    (fp content : String) :
    processNewLogEntries false false batchSize home now parseJson lpl buf fp content
      = ⟨lpl, buf, [], false⟩
    ∧ ∀ (sE aE : Bool) (c2 : String),
        processNewLogEntries sE aE batchSize home now parseJson
          (processNewLogEntries false false batchSize home now parseJson lpl buf fp content).lastProcessedLines
          (processNewLogEntries false false batchSize home now parseJson lpl buf fp content).streamBuffer
          fp c2
        = processNewLogEntries sE aE batchSize home now parseJson lpl buf fp c2 :=
  ⟨rfl, fun _ _ _ => rfl⟩

/-- C5: with streaming enabled, a poll advances the per-source cursor to
the new total line count unconditionally (for any parser, so lines that
failed to parse are never retried), and polling again with no source
mutation adds no stream records, emits no alerts and leaves the cursor
map unchanged. -/
theorem tailer_exactly_new (alertEnabled : Bool) (batchSize : Nat) (home now : String)
    (parseJson : String → Option LogEntry) (lpl : String → Nat) (buf : List StreamRecord)
    (fp content : String) :
    let o1 := processNewLogEntries true alertEnabled batchSize home now parseJson lpl buf fp content
    let o2 := processNewLogEntries true alertEnabled batchSize home now parseJson
      o1.lastProcessedLines o1.streamBuffer fp content
    o1.lastProcessedLines fp = (jsSplitLines content).length
    ∧ o2.streamBuffer = o1.streamBuffer
    ∧ o2.alerts = []
    ∧ o2.lastProcessedLines = o1.lastProcessedLines := by
  simp only [processNewLogEntries, not_true, false_and, if_false, collectLines]
  refine ⟨by simp, ?_, ?_, ?_⟩
  · simp [List.drop_length, collectLines]
  · simp [List.drop_length, collectLines]
  · funext p
    by_cases hp : p = fp <;> simp [hp]

/-- C3 counterexample: with the cursor for `logs/f.jsonl` at 3 (three
lines previously consumed), the source truncated to one line (`a`) and
one new line appended (`b`, so the claim's `k = 1`), a poll yields NO
records — not the 1 appended record the claim promises — and sets the
cursor to the new total 2 rather than resetting it to 0. -/
theorem tailer_shrink_no_reset_cex :
    (processNewLogEntries true false 10 "/Users/u" "T" demoParse (fun _ => 3) []
        "logs/f.jsonl" "a\nb").streamBuffer = []
    ∧ ¬((processNewLogEntries true false 10 "/Users/u" "T" demoParse (fun _ => 3) []
        "logs/f.jsonl" "a\nb").streamBuffer.length = 1)
    ∧ (processNewLogEntries true false 10 "/Users/u" "T" demoParse (fun _ => 3) []
        "logs/f.jsonl" "a\nb").lastProcessedLines "logs/f.jsonl" = 2
    ∧ ¬((processNewLogEntries true false 10 "/Users/u" "T" demoParse (fun _ => 3) []
        "logs/f.jsonl" "a\nb").lastProcessedLines "logs/f.jsonl" = 0) := by
  refine ⟨by decide, by decide, by decide, by decide⟩

/-- C3 (amended): when the source shrinks to at most the stored cursor,
a poll never crashes or takes a negative-length slice — the slice clamps
to empty, so the poll emits nothing and sets the cursor to the new
(smaller) total rather than resetting it to 0; `k` lines appended after
that poll are emitted exactly by the next poll, while lines appended
before the first post-shrink poll are silently skipped as long as the
total stays at or below the old cursor. -/
theorem tailer_shrink_clamps (aE : Bool) (bs : Nat) (home now : String)
    (pj : String → Option LogEntry) (lpl : String → Nat) (buf : List StreamRecord)
    (fp c1 c2 : String) (lines ks : List String)
    (h1 : jsSplitLines c1 = lines) (h2 : lines.length ≤ lpl fp)
    (h3 : jsSplitLines c2 = lines ++ ks) :
    (processNewLogEntries true aE bs home now pj lpl buf fp c1).streamBuffer = buf
    ∧ (processNewLogEntries true aE bs home now pj lpl buf fp c1).alerts = []
    ∧ (processNewLogEntries true aE bs home now pj lpl buf fp c1).lastProcessedLines fp = lines.length
    ∧ (processNewLogEntries true aE bs home now pj
        (processNewLogEntries true aE bs home now pj lpl buf fp c1).lastProcessedLines
        (processNewLogEntries true aE bs home now pj lpl buf fp c1).streamBuffer fp c2).streamBuffer
      = buf ++ (collectLines true aE home now ((fp.splitOn "/").getLastD "") pj ks).1
    ∧ (processNewLogEntries true aE bs home now pj
        (processNewLogEntries true aE bs home now pj lpl buf fp c1).lastProcessedLines
        (processNewLogEntries true aE bs home now pj lpl buf fp c1).streamBuffer fp c2).alerts
      = (collectLines true aE home now ((fp.splitOn "/").getLastD "") pj ks).2
    ∧ (processNewLogEntries true aE bs home now pj
        (processNewLogEntries true aE bs home now pj lpl buf fp c1).lastProcessedLines
        (processNewLogEntries true aE bs home now pj lpl buf fp c1).streamBuffer fp c2).lastProcessedLines fp
      = lines.length + ks.length := by
  have hdrop : lines.drop (lpl fp) = [] := List.drop_eq_nil_of_le h2
  have ho1 : processNewLogEntries true aE bs home now pj lpl buf fp c1 =
      ⟨fun p => if p = fp then lines.length else lpl p, buf, [], true && decide (bs ≤ buf.length)⟩ := by
    simp only [processNewLogEntries, not_true, false_and, if_false, h1, hdrop, collectLines,
      List.foldl_nil, List.append_nil]
  have ho2 : processNewLogEntries true aE bs home now pj
      (fun p => if p = fp then lines.length else lpl p) buf fp c2 =
      ⟨fun p => if p = fp then lines.length + ks.length else if p = fp then lines.length else lpl p,
       buf ++ (collectLines true aE home now ((fp.splitOn "/").getLastD "") pj ks).1,
       (collectLines true aE home now ((fp.splitOn "/").getLastD "") pj ks).2,
       true && decide (bs ≤ (buf ++ (collectLines true aE home now ((fp.splitOn "/").getLastD "") pj ks).1).length)⟩ := by
    simp only [processNewLogEntries, not_true, false_and, if_false, h3, if_pos rfl,
      eq_self_iff_true, if_true, List.drop_left, List.length_append]
  refine ⟨by simp only [ho1], by simp only [ho1], by simp [ho1], ?_, ?_, ?_⟩
  · simp only [ho1, ho2]
  · simp only [ho1, ho2]
  · simp [ho1, ho2]

/-- Witness for the amended C3 theorem: cursor at 3, source truncated to
`a`; the post-shrink poll emits nothing, and the next poll after
appending `b` emits exactly the records of that one line. -/
theorem tailer_shrink_clamps_witness :
    jsSplitLines "a" = ["a"]
    ∧ (["a"] : List String).length ≤ (fun (_ : String) => 3) "logs/f.jsonl"
    ∧ jsSplitLines "a\nb" = ["a"] ++ ["b"]
    ∧ (processNewLogEntries true false 10 "/Users/u" "T" demoParse (fun _ => 3) []
        "logs/f.jsonl" "a").streamBuffer = []
    ∧ (processNewLogEntries true false 10 "/Users/u" "T" demoParse
        (processNewLogEntries true false 10 "/Users/u" "T" demoParse (fun _ => 3) []
          "logs/f.jsonl" "a").lastProcessedLines
        (processNewLogEntries true false 10 "/Users/u" "T" demoParse (fun _ => 3) []
          "logs/f.jsonl" "a").streamBuffer "logs/f.jsonl" "a\nb").streamBuffer
      = [] ++ (collectLines true false "/Users/u" "T"
          (("logs/f.jsonl".splitOn "/").getLastD "") demoParse ["b"]).1 := by
  have h := tailer_shrink_clamps false 10 "/Users/u" "T" demoParse (fun _ => 3) []
    "logs/f.jsonl" "a" "a\nb" ["a"] ["b"] (by decide) (by decide) (by decide)
  exact ⟨by decide, by decide, by decide, h.1, h.2.2.2.1⟩

/-- C4: any record of the shell category whose command matches at least
one critical-tier rule is classified `critical`, regardless of what
lower-tier rules also match; in particular
`{tool: "exec", arguments: {command: "sudo rm -rf /"}}` is critical with
both the sudo-escalation and the destructive-deletion evidence. -/
theorem critical_rule_forces_critical_level :
    (∀ (home tool : String) (args : Option Args),
      categorize tool = .shell →
      CRITICAL_SHELL_PATTERNS.any (fun p => testR p.re (jsOrStr (args.bind Args.command) "")) = true →
      (analyzeRisk home ⟨tool, args⟩).level = .critical)
    ∧ ∀ home : String,
        analyzeRisk home ⟨"exec", some { command := some "sudo rm -rf /" }⟩ =
          { level := .critical, category := .shell,
            flags := ["CRITICAL: Privileged command execution",
                      "CRITICAL: Recursive deletion of system/home paths"], score := 4 } := by
  constructor
  · intro home tool args hcat hany
    simp only [analyzeRisk, hcat]
    rw [scanTable_eq_pair]
    simp [hany, riskScore]
  · intro home
    rfl

/-- Witness for C4 at `sudo rm -rf /`. -/
theorem critical_rule_forces_critical_level_witness :
    categorize "exec" = .shell
    ∧ CRITICAL_SHELL_PATTERNS.any
        (fun p => testR p.re (jsOrStr ((some { command := some "sudo rm -rf /" } : Option Args).bind Args.command) "")) = true
    ∧ (analyzeRisk "/Users/u" ⟨"exec", some { command := some "sudo rm -rf /" }⟩).level = .critical :=
  ⟨by decide, by decide,
   critical_rule_forces_critical_level.1 "/Users/u" "exec" (some { command := some "sudo rm -rf /" })
     (by decide) (by decide)⟩

/-- C9: the classifier is total by construction, and every record whose
tool maps to the `other` category — any unknown tool name — yields the
default verdict `low` with no flags, whatever its arguments; in
particular the unknown tool `teleport` does. -/
theorem analyzeRisk_unknown_tool_low :
    (∀ (home tool : String) (args : Option Args), categorize tool = .other →
      analyzeRisk home ⟨tool, args⟩ = { level := .low, category := .other, flags := [], score := 1 })
    ∧ ∀ (home : String) (args : Option Args),
        analyzeRisk home ⟨"teleport", args⟩ = { level := .low, category := .other, flags := [], score := 1 } := by
  have p1 : ∀ (home tool : String) (args : Option Args), categorize tool = .other →
      analyzeRisk home ⟨tool, args⟩ = { level := .low, category := .other, flags := [], score := 1 } := by
    intro home tool args hcat
    simp [analyzeRisk, hcat, riskScore]
  exact ⟨p1, fun home args => p1 home "teleport" args rfl⟩

/-- Witness for C9 at the unknown tool `teleport` with arbitrary
arguments. -/
theorem analyzeRisk_unknown_tool_low_witness :
    categorize "teleport" = .other
    ∧ analyzeRisk "/Users/u" ⟨"teleport", some { command := some "fly --up" }⟩ =
        { level := .low, category := .other, flags := [], score := 1 } :=
  ⟨by decide,
   analyzeRisk_unknown_tool_low.1 "/Users/u" "teleport" (some { command := some "fly --up" }) (by decide)⟩

/-- C8 counterexample: tool-name categorization is exact-match, not
case-insensitive — the case variant `READ` falls to `other` while `read`
maps to `file`, so not all case variants of a tool name map to the same
category. -/
theorem categorize_case_variant_cex :
    categorize "READ" = .other ∧ categorize "read" = .file
    ∧ categorize "READ" ≠ categorize "read" := by decide

/-- C8 (amended): only the specific cased variants present in the lookup
table are equivalent; in particular `Read` and `read` both map to the
`file` category and `analyzeRisk` gives them identical verdicts for
every argument bag. -/
theorem categorize_read_variants :
    categorize "Read" = .file ∧ categorize "read" = .file
    ∧ ∀ (home : String) (args : Option Args),
        analyzeRisk home ⟨"Read", args⟩ = analyzeRisk home ⟨"read", args⟩ :=
  ⟨rfl, rfl, fun _ _ => rfl⟩

/-- C6: in the window-bounded lookahead scans of pattern 1
(credential-file read → network) and pattern 5 (SSH-key read → SSH
connection), the window is a hard inclusive boundary: a correlated event
exactly `windowMs` after the trigger is matched (after any in-window
non-qualifying events), and once the time delta reaches `windowMs + 1`
the scan breaks and reports nothing. -/
theorem sequence_window_boundary (W : Int) (cur e : Activity) (pre post : List Activity) :
    ((∀ x ∈ pre, x.timestamp - cur.timestamp ≤ W ∧ ¬p1Qualifies x) →
      e.timestamp - cur.timestamp = W → e.tool = "exec" →
      isNetworkCommand (jsOrStr (cmdOptA e) "") = true →
      scanP1 W cur (pre ++ e :: post) = some (mkSeqCredNet cur e))
    ∧ ((∀ x ∈ pre, ¬p1Qualifies x) → e.timestamp - cur.timestamp = W + 1 →
      scanP1 W cur (pre ++ e :: post) = none)
    ∧ ((∀ x ∈ pre, x.timestamp - cur.timestamp ≤ W ∧ ¬p5Qualifies x) →
      e.timestamp - cur.timestamp = W → e.tool = "exec" →
      testR reSshConn (jsOrStr (cmdOptA e) "") = true →
      scanP5 W cur (pre ++ e :: post) = some (mkSeqSshConn cur e))
    ∧ ((∀ x ∈ pre, ¬p5Qualifies x) → e.timestamp - cur.timestamp = W + 1 →
      scanP5 W cur (pre ++ e :: post) = none) := by
  refine ⟨?_, ?_, ?_, ?_⟩
  · intro h he ht hn
    induction pre with
    | nil =>
      simp only [List.nil_append, scanP1]
      rw [if_neg (by omega), if_pos ⟨ht, hn⟩]
    | cons x xs ih =>
      obtain ⟨hx, hxs⟩ := List.forall_mem_cons.mp h
      simp only [List.cons_append, scanP1]
      rw [if_neg (by have := hx.1; omega),
          if_neg (fun hq => hx.2 (Or.inl hq)),
          if_neg (fun hq => hx.2 (Or.inr hq))]
      exact ih hxs
  · intro h he
    induction pre with
    | nil =>
      simp only [List.nil_append, scanP1]
      rw [if_pos (by omega)]
    | cons x xs ih =>
      obtain ⟨hx, hxs⟩ := List.forall_mem_cons.mp h
      simp only [List.cons_append, scanP1]
      by_cases hb : x.timestamp - cur.timestamp > W
      · rw [if_pos hb]
      · rw [if_neg hb, if_neg (fun hq => hx (Or.inl hq)), if_neg (fun hq => hx (Or.inr hq))]
        exact ih hxs
  · intro h he ht hn
    induction pre with
    | nil =>
      simp only [List.nil_append, scanP5]
      rw [if_neg (by omega), if_pos ⟨ht, hn⟩]
    | cons x xs ih =>
      obtain ⟨hx, hxs⟩ := List.forall_mem_cons.mp h
      simp only [List.cons_append, scanP5]
      rw [if_neg (by have := hx.1; omega),
          if_neg (show ¬(x.tool = "exec" ∧ testR reSshConn (jsOrStr (cmdOptA x) "") = true) from hx.2)]
      exact ih hxs
  · intro h he
    induction pre with
    | nil =>
      simp only [List.nil_append, scanP5]
      rw [if_pos (by omega)]
    | cons x xs ih =>
      obtain ⟨hx, hxs⟩ := List.forall_mem_cons.mp h
      simp only [List.cons_append, scanP5]
      by_cases hb : x.timestamp - cur.timestamp > W
      · rw [if_pos hb]
      · rw [if_neg hb,
            if_neg (show ¬(x.tool = "exec" ∧ testR reSshConn (jsOrStr (cmdOptA x) "") = true) from hx)]
        exact ih hxs

/-- Witness for C6 at the default 5-minute window: events exactly at
300000 ms are matched by patterns 1 and 5, events at 300001 ms are not. -/
theorem sequence_window_boundary_witness :
    ((curlExecRec 300000).timestamp - credReadRec.timestamp = 300000
      ∧ scanP1 300000 credReadRec ([] ++ curlExecRec 300000 :: []) =
          some (mkSeqCredNet credReadRec (curlExecRec 300000)))
    ∧ ((curlExecRec 300001).timestamp - credReadRec.timestamp = 300000 + 1
      ∧ scanP1 300000 credReadRec ([] ++ curlExecRec 300001 :: []) = none)
    ∧ ((sshExecRec 300000).timestamp - sshReadRec.timestamp = 300000
      ∧ scanP5 300000 sshReadRec ([] ++ sshExecRec 300000 :: []) =
          some (mkSeqSshConn sshReadRec (sshExecRec 300000)))
    ∧ ((sshExecRec 300001).timestamp - sshReadRec.timestamp = 300000 + 1
      ∧ scanP5 300000 sshReadRec ([] ++ sshExecRec 300001 :: []) = none) :=
  ⟨⟨by decide,
    (sequence_window_boundary 300000 credReadRec (curlExecRec 300000) [] []).1
      (by simp) (by decide) (by decide) (by decide)⟩,
   ⟨by decide,
    (sequence_window_boundary 300000 credReadRec (curlExecRec 300001) [] []).2.1
      (by simp) (by decide)⟩,
   ⟨by decide,
    (sequence_window_boundary 300000 sshReadRec (sshExecRec 300000) [] []).2.2.1
      (by simp) (by decide) (by decide) (by decide)⟩,
   ⟨by decide,
    (sequence_window_boundary 300000 sshReadRec (sshExecRec 300001) [] []).2.2.2
      (by simp) (by decide)⟩⟩

/-- Pattern 1's lookahead finds nothing among non-qualifying events. -/
theorem scanP1_none (W : Int) (cur : Activity) (l : List Activity)
    (h : ∀ x ∈ l, ¬p1Qualifies x) : scanP1 W cur l = none := by
  induction l with
  | nil => rfl
  | cons x xs ih =>
    obtain ⟨hx, hxs⟩ := List.forall_mem_cons.mp h
    simp only [scanP1]
    by_cases hb : x.timestamp - cur.timestamp > W
    · rw [if_pos hb]
    · rw [if_neg hb, if_neg (fun hq => hx (Or.inl hq)), if_neg (fun hq => hx (Or.inr hq))]
      exact ih hxs

/-- Pattern 5's lookahead finds nothing among non-qualifying events. -/
theorem scanP5_none (W : Int) (cur : Activity) (l : List Activity)
    (h : ∀ x ∈ l, ¬p5Qualifies x) : scanP5 W cur l = none := by
  induction l with
  | nil => rfl
  | cons x xs ih =>
    obtain ⟨hx, hxs⟩ := List.forall_mem_cons.mp h
    simp only [scanP5]
    by_cases hb : x.timestamp - cur.timestamp > W
    · rw [if_pos hb]
    · rw [if_neg hb,
          if_neg (show ¬(x.tool = "exec" ∧ testR reSshConn (jsOrStr (cmdOptA x) "") = true) from hx)]
      exact ih hxs

/-- When every record is a read within 60 s of the trigger, the burst
collection is a plain prefix of the scanned window. -/
theorem readsWithin_all (cur : Activity) (fuel : Nat) (l : List Activity)
    (hall : ∀ x ∈ l, x.tool = "read" ∨ x.tool = "Read")
    (hdiff : ∀ x ∈ l, x.timestamp - cur.timestamp ≤ 60000) :
    readsWithin cur fuel l = l.take fuel := by
  induction fuel generalizing l with
  | zero => simp [readsWithin]
  | succ n ih =>
    cases l with
    | nil => simp [readsWithin]
    | cons x xs =>
      obtain ⟨hx, hxs⟩ := List.forall_mem_cons.mp hall
      obtain ⟨hdx, hdxs⟩ := List.forall_mem_cons.mp hdiff
      simp only [readsWithin, List.take_succ_cons]
      rw [if_neg (by omega), if_pos hx, ih xs hxs hdxs]

/-- On an input of mutually-close `read` records, one detector iteration
contributes only its pattern-9 (Bulk File Enumeration) finding. -/
theorem detectStep_of_reads (W : Int) (l : List Activity)
    (hall : ∀ x ∈ l, x.tool = "read")
    (hdiff : ∀ x ∈ l, ∀ y ∈ l, x.timestamp - y.timestamp ≤ 60000)
    (acc : List SuspiciousSequence) (i : Nat) :
    detectStep W l acc i = acc ++ (match l[i]? with
      | none => []
      | some cur =>
        if 10 ≤ ((l.drop i).take 20).length then
          if bulkFlagged acc cur then [] else [mkSeqBulk cur ((l.drop i).take 20)]
        else []) := by
  cases hget : l[i]? with
  | none => simp [detectStep, hget]
  | some cur =>
    have hcur : cur ∈ l := List.getElem?_mem hget
    have hread := hall cur hcur
    have hq1 : ∀ x ∈ l.drop (i + 1), ¬p1Qualifies x := by
      intro x hx hq
      have hxt : x.tool = "read" := hall x (List.mem_of_mem_drop hx)
      rcases hq with ⟨he, _⟩ | hw
      · rw [hxt] at he; exact absurd he (by decide)
      · rw [hxt] at hw; exact absurd hw (by decide)
    have hq5 : ∀ x ∈ l.drop (i + 1), ¬p5Qualifies x := by
      intro x hx hq
      have hxt : x.tool = "read" := hall x (List.mem_of_mem_drop hx)
      have hxe : x.tool = "exec" := hq.1
      rw [hxt] at hxe
      exact absurd hxe (by decide)
    have hs1 := scanP1_none W cur (l.drop (i + 1)) hq1
    have hs5 := scanP5_none W cur (l.drop (i + 1)) hq5
    have hriw : readsWithin cur 20 (l.drop i) = (l.drop i).take 20 :=
      readsWithin_all cur 20 (l.drop i)
        (fun x hx => Or.inl (hall x (List.mem_of_mem_drop hx)))
        (fun x hx => hdiff x (List.mem_of_mem_drop hx) cur hcur)
    simp only [detectStep, hget, hs1, hs5, hriw, hread, Option.toList]
    simp

/-- Deduplication keeps a single finding. -/
theorem dedupeSeqs_singleton (s : SuspiciousSequence) : dedupeSeqs [s] = [s] := by
  simp [dedupeSeqs, List.findIdx?]

/-- C7: for any ten read-tool records sorted ascending within a
45-second span (and nothing else in the input), the detector emits
exactly one sequence, of type Bulk File Enumeration — one per anchor
window, not one per read. -/
theorem bulk_enumeration_single_emission (W : Int)
    (a0 a1 a2 a3 a4 a5 a6 a7 a8 a9 : Activity)
    (hall : ∀ x ∈ [a0, a1, a2, a3, a4, a5, a6, a7, a8, a9], x.tool = "read")
    (hchain : List.Chain' (fun x y => x.timestamp ≤ y.timestamp)
      [a0, a1, a2, a3, a4, a5, a6, a7, a8, a9])
    (hspan : a9.timestamp - a0.timestamp ≤ 45000) :
    (detectSequences W [a0, a1, a2, a3, a4, a5, a6, a7, a8, a9]).map (fun s => s.type)
      = ["Bulk File Enumeration"] := by
  simp only [List.chain'_cons, List.chain'_singleton, and_true] at hchain
  obtain ⟨h01, h12, h23, h34, h45, h56, h67, h78, h89⟩ := hchain
  set l := [a0, a1, a2, a3, a4, a5, a6, a7, a8, a9] with hl
  have hdiff : ∀ x ∈ l, ∀ y ∈ l, x.timestamp - y.timestamp ≤ 60000 := by
    intro x hx y hy
    rw [hl] at hx hy
    simp only [List.mem_cons, List.not_mem_nil, or_false] at hx hy
    rcases hx with rfl | rfl | rfl | rfl | rfl | rfl | rfl | rfl | rfl | rfl <;>
      rcases hy with rfl | rfl | rfl | rfl | rfl | rfl | rfl | rfl | rfl | rfl <;> omega
  haveI : IsTrans Activity (fun a b : Activity => decide (a.timestamp ≤ b.timestamp) = true) :=
    ⟨fun a b c hab hbc => by
      simp only [decide_eq_true_eq] at hab hbc ⊢
      omega⟩
  have hchain' : List.Chain' (fun a b : Activity => decide (a.timestamp ≤ b.timestamp) = true) l := by
    rw [hl]
    simp only [List.chain'_cons, List.chain'_singleton, and_true, decide_eq_true_eq]
    exact ⟨h01, h12, h23, h34, h45, h56, h67, h78, h89⟩
  have hpair := List.chain'_iff_pairwise.mp hchain'
  have hms : l.mergeSort (fun a b => decide (a.timestamp ≤ b.timestamp)) = l :=
    List.mergeSort_of_sorted hpair
  have hlen : l.length = 10 := by rw [hl]; rfl
  have hstep : ∀ (acc : List SuspiciousSequence) (i : Nat), 1 ≤ i → i ≤ 9 →
      detectStep W l acc i = acc := by
    intro acc i hi1 hi9
    rw [detectStep_of_reads W l hall hdiff acc i]
    cases hgi : l[i]? with
    | none => simp
    | some cur =>
      simp only [List.length_take, List.length_drop, hlen]
      rw [if_neg (by omega)]
      simp
  have hstep0 : detectStep W l [] 0 = [mkSeqBulk a0 ((l.drop 0).take 20)] := by
    rw [detectStep_of_reads W l hall hdiff [] 0]
    have h0 : l[0]? = some a0 := by rw [hl]; rfl
    rw [h0]
    simp only [List.length_take, List.length_drop, hlen, bulkFlagged, List.any_nil]
    rw [if_pos (by omega)]
    simp
  simp only [detectSequences]
  rw [hms, hlen]
  rw [show List.range 10 = [0, 1, 2, 3, 4, 5, 6, 7, 8, 9] from rfl]
  simp only [List.foldl_cons, List.foldl_nil]
  rw [hstep0, hstep _ 1 (by omega) (by omega), hstep _ 2 (by omega) (by omega),
      hstep _ 3 (by omega) (by omega), hstep _ 4 (by omega) (by omega),
      hstep _ 5 (by omega) (by omega), hstep _ 6 (by omega) (by omega),
      hstep _ 7 (by omega) (by omega), hstep _ 8 (by omega) (by omega),
      hstep _ 9 (by omega) (by omega)]
  rw [dedupeSeqs_singleton]
  simp [mkSeqBulk]

/-- Witness for C7: ten reads spaced 5 s apart (a 45-second span) yield
exactly one Bulk File Enumeration sequence. -/
theorem bulk_enumeration_single_emission_witness :
    (∀ x ∈ [readAt 0, readAt 5000, readAt 10000, readAt 15000, readAt 20000, readAt 25000,
            readAt 30000, readAt 35000, readAt 40000, readAt 45000], x.tool = "read")
    ∧ List.Chain' (fun x y => x.timestamp ≤ y.timestamp)
        [readAt 0, readAt 5000, readAt 10000, readAt 15000, readAt 20000, readAt 25000,
         readAt 30000, readAt 35000, readAt 40000, readAt 45000]
    ∧ (readAt 45000).timestamp - (readAt 0).timestamp ≤ 45000
    ∧ (detectSequences 300000
        [readAt 0, readAt 5000, readAt 10000, readAt 15000, readAt 20000, readAt 25000,
         readAt 30000, readAt 35000, readAt 40000, readAt 45000]).map (fun s => s.type)
      = ["Bulk File Enumeration"] := by
  have hch : List.Chain' (fun x y : Activity => x.timestamp ≤ y.timestamp)
      [readAt 0, readAt 5000, readAt 10000, readAt 15000, readAt 20000, readAt 25000,
       readAt 30000, readAt 35000, readAt 40000, readAt 45000] := by
    simp only [List.chain'_cons, List.chain'_singleton, and_true]
    refine ⟨?_, ?_, ?_, ?_, ?_, ?_, ?_, ?_, ?_⟩ <;> decide
  exact ⟨by decide, hch, by decide,
   bulk_enumeration_single_emission 300000 (readAt 0) (readAt 5000) (readAt 10000)
     (readAt 15000) (readAt 20000) (readAt 25000) (readAt 30000) (readAt 35000)
     (readAt 40000) (readAt 45000) (by decide) hch (by decide)⟩
